import Mathlib

/-!
# tinylog: a shallow embedding of the logger and its checked properties

The development follows the three source files of the repository.

* `types.go`     : colour constants, level constants, `LevelText`, `Config`, `Logger`
* `tinylog.go`   : `getWriter`, `getDebugWriter`, `getInfoWriter`, `getErrorWriter`,
                   `removeAnsi`, `generateTimeString`, `doLog`, `doLogf`
* `functions.go` : `NewLogger`, `NewColor`, `GenerateTag`, `NewConfig`, `ApplyConfig`
                   and the public logging methods

Modelling conventions.

* A Go string is the list of its code points (`GoString`); `len` is the length in bytes
  of its UTF-8 encoding, `List.length` is the rune count.  Strings that are not valid
  UTF-8 are outside the model.
* Go `int` is an `Int`; the one arithmetic expression of the source that can leave the
  64-bit range is wrapped explicitly (`wrapInt`).
* The world the code reads is an explicit `Env`: the formatted current time, whether a
  path can be opened for appending, and the behaviour of `fmt.Sprintf` on the calls
  that fall outside the fragment of `fmt` modelled here.
* A logging call returns a `Run`: the `Write` calls it issued, in order, and how the
  call ended (returned, `os.Exit`, `panic`, or a method call on a nil `io.Writer`).
-/

set_option linter.unusedVariables false

namespace Tinylog

/-! ## Strings -/

/-- A Go string, held as the sequence of its code points. -/
abbrev GoString := List Char

/-- Number of bytes of the UTF-8 encoding of one code point. -/
def runeLen (c : Char) : Nat :=
  if c.toNat < 0x80 then 1
  else if c.toNat < 0x800 then 2
  else if c.toNat < 0x10000 then 3
  else 4

/-- Go's builtin `len` on a string: the number of bytes. -/
def len : GoString → Nat
  | [] => 0
  | c :: cs => runeLen c + len cs

/-- The escape character `\033`. -/
def ESC : Char := Char.ofNat 0x1B

/-- The single-character control sequence introducer `\u009B`. -/
def CSI : Char := Char.ofNat 0x9B

/-- The bell character `\u0007`. -/
def BEL : Char := Char.ofNat 0x07

/-- ASCII decimal digit. -/
def isDigit (c : Char) : Bool := 48 ≤ c.toNat && c.toNat ≤ 57

/-! ## The regular expression of `removeAnsi`

Go's `regexp` package matches leftmost-first: the match starts as early as possible and,
among the matches starting there, is the one a backtracking search finds first.  The
matcher below returns, for an expression and an input, the inputs left over by every way
of matching a prefix, in the order a backtracking search tries them; the head of that
list is the match Go reports at that position. -/

/-- Regular expressions, as far as the pattern of `removeAnsi` needs them. -/
inductive Re
  | cls (ranges : List (Char × Char))
  | seq (a b : Re)
  | alt (a b : Re)
  | opt (a : Re)
  | star (a : Re)

/-- Membership of a code point in a character class given by inclusive ranges. -/
def inRanges (c : Char) : List (Char × Char) → Bool
  | [] => false
  | r :: rs => (r.1.toNat ≤ c.toNat && c.toNat ≤ r.2.toNat) || inRanges c rs

/-- Greedy iteration: try one more round of `f` first, then stop.  The fuel is the
number of rounds still allowed; every round of the pattern below consumes a character,
so the length of the input is enough. -/
def starLoop (f : GoString → List GoString) : Nat → GoString → List GoString
  | 0, s => [s]
  | n + 1, s => (f s).flatMap (starLoop f n) ++ [s]

/-- All ways of matching a prefix of the input, in backtracking order, each given by
the input that remains. -/
def Re.run : Re → GoString → List GoString
  | .cls rs, s =>
    match s with
    | [] => []
    | c :: cs => if inRanges c rs then [cs] else []
  | .seq a b, s => (a.run s).flatMap b.run
  | .alt a b, s => a.run s ++ b.run s
  | .opt a, s => a.run s ++ [s]
  | .star a, s => starLoop a.run s.length s

/-- At most `k` greedy copies: `x{0,k}` as `(x(x(...)?)?)?`. -/
def Re.upTo (a : Re) : Nat → Re
  | 0 => .opt a
  | k + 1 => .opt (.seq a (Re.upTo a k))

/-- The counted repetitions of the pattern: `x{1,4}` is `x(x(x(x)?)?)?` and
`x{0,4}` is `(x(x(x(x)?)?)?)?`. -/
def Re.rep14 (a : Re) : Re := .seq a (Re.upTo a 2)

/-- See `Re.rep14`. -/
def Re.rep04 (a : Re) : Re := .opt (Re.rep14 a)

/-- Class `[\u001B\u009B]`. -/
def reIntro : Re := .cls [(ESC, ESC), (CSI, CSI)]

/-- Class `[[\]()#;?]`. -/
def rePunct : Re := .cls [('[', '['), (']', ']'), ('(', '('), (')', ')'), ('#', '#'), (';', ';'), ('?', '?')]

/-- Class `[a-zA-Z\d]`. -/
def reAlnum : Re := .cls [('a', 'z'), ('A', 'Z'), ('0', '9')]

/-- Class `\d`. -/
def reDigit : Re := .cls [('0', '9')]

/-- The literal `;`. -/
def reSemi : Re := .cls [(';', ';')]

/-- The literal `\u0007`. -/
def reBel : Re := .cls [(BEL, BEL)]

/-- Class `[\dA-PRZcf-ntqry=><~]`. -/
def reFinal : Re :=
  .cls [('0', '9'), ('A', 'P'), ('R', 'R'), ('Z', 'Z'), ('c', 'c'), ('f', 'n'), ('t', 't'),
        ('q', 'q'), ('r', 'r'), ('y', 'y'), ('=', '='), ('>', '>'), ('<', '<'), ('~', '~')]

/-- First alternative: `(?:[a-zA-Z\d]*(?:;[a-zA-Z\d]*)*)?\u0007`. -/
def reOsc : Re :=
  .seq (.opt (.seq (.star reAlnum) (.star (.seq reSemi (.star reAlnum))))) reBel

/-- Second alternative: `(?:\d{1,4}(?:;\d{0,4})*)?[\dA-PRZcf-ntqry=><~]`. -/
def reCsi : Re :=
  .seq (.opt (.seq (Re.rep14 reDigit) (.star (.seq reSemi (Re.rep04 reDigit))))) reFinal

/-- The whole `ansiPattern` of `removeAnsi`. -/
def ansiPattern : Re :=
  .seq reIntro (.seq (.star rePunct) (.alt reOsc reCsi))

/-- The match of `ansiPattern` starting at the head of the input, if any, given by the
input that remains after it. -/
def matchAnsi (s : GoString) : Option GoString := (ansiPattern.run s).head?

/-- Replace every match by the empty string, scanning left to right.  The counter is
the number of characters of the current match still to be dropped. -/
def stripFrom : Nat → GoString → GoString
  | _, [] => []
  | k + 1, _ :: cs => stripFrom k cs
  | 0, c :: cs =>
    match matchAnsi (c :: cs) with
    | some rest => stripFrom ((c :: cs).length - rest.length - 1) cs
    | none => c :: stripFrom 0 cs

/-- The function `removeAnsi` of tinylog.go: `ReplaceAllString(str, "")` with the compiled `ansiPattern`. -/
def removeAnsi (str : GoString) : GoString := stripFrom 0 str

/-! ## The fragment of `fmt.Sprintf` used by the logger -/

/-- An operand of `fmt.Sprintf`. -/
inductive Value
  | str (s : GoString)
  | int (n : Int)
  deriving DecidableEq

/-- What the code reads from outside. -/
structure Env where
  /-- The result of `time.Now().Format(pattern)` at the moment of the call. -/
  now : GoString → GoString
  /-- Whether `os.OpenFile(path, O_APPEND|O_CREATE|O_WRONLY, 0644)` succeeds. -/
  canOpen : GoString → Bool
  /-- The result of `fmt.Sprintf` on a call outside the fragment modelled by `doPrintf`. -/
  fmtOther : GoString → List Value → GoString

/-- The decimal digit for a number below ten. -/
def digitChar : Nat → Char
  | 0 => '0' | 1 => '1' | 2 => '2' | 3 => '3' | 4 => '4'
  | 5 => '5' | 6 => '6' | 7 => '7' | 8 => '8' | _ => '9'

/-- Decimal digits, most significant first; the fuel bounds the number of digits. -/
def natDigits : Nat → Nat → GoString
  | 0, _ => []
  | f + 1, n => if n < 10 then [digitChar n] else natDigits f (n / 10) ++ [digitChar (n % 10)]

/-- The verb `%v` on an `int`: signed decimal. -/
def itoa (n : Int) : GoString :=
  if n < 0 then '-' :: natDigits (n.natAbs + 1) n.natAbs else natDigits (n.natAbs + 1) n.natAbs

/-- The method `padString` of fmt: pad to the width, counted in runes, with spaces on the left, or
on the right under the minus flag; never truncate. -/
def padString (minus : Bool) (wid : Option Nat) (s : GoString) : GoString :=
  match wid with
  | none => s
  | some w =>
    if minus then s ++ List.replicate (w - s.length) ' '
    else List.replicate (w - s.length) ' ' ++ s

/-- Print one operand under a verb with the flags and width read so far.  Modelled:
`%s` and `%v` on a string, padded by `padString`, without zero padding; `%v` on an
integer without flags or width. -/
def printArg (minus zero : Bool) (wid : Option Nat) (verb : Char) : Value → Option GoString
  | .str s =>
    if (verb = 's' ∨ verb = 'v') ∧ ¬ (zero = true ∧ wid.isSome = true) then
      some (padString minus wid s)
    else none
  | .int n =>
    if verb = 'v' ∧ minus = false ∧ zero = false ∧ wid = none then some (itoa n) else none

/-- One operand in the report of fmt on operands that no verb consumed: its type, an
equals sign, and the operand as `%v` prints it. -/
def extraArg : Value → GoString
  | .str s => "string=".toList ++ s
  | .int n => "int=".toList ++ itoa n

/-- The operands of the report, separated by a comma and a space. -/
def extraArgs : List Value → GoString
  | [] => []
  | [v] => extraArg v
  | v :: w :: vs => extraArg v ++ ", ".toList ++ extraArgs (w :: vs)

/-- What `doPrintf` of fmt appends when operands are left over at the end of the
format: `%!(EXTRA type=value, ...)`, and nothing when no operand is left. -/
def extraString : List Value → GoString
  | [] => []
  | v :: vs => "%!(EXTRA ".toList ++ extraArgs (v :: vs) ++ ")".toList

/-- Where the scan of a format string stands: in literal text, in the flags after a
percent sign, or in the digits of a width. -/
inductive Scan
  | text
  | flags (minus zero : Bool)
  | width (minus zero : Bool) (num : Nat)

/-- The loop `doPrintf` of fmt on the modelled fragment: literal text, and verbs
`%[-0]*[width](s|v)` each consuming the next operand.  The function `parsenum` of fmt
gives up on a width as soon as the number read so far exceeds 1000000 and another digit
follows; it then skips to the end of the format, so the scan ends with `%!(NOVERB)` and
the report of the operands left.  `none` means the call leaves the fragment (other
flags and verbs, `%%`, precision, argument indexes, `*`, missing or extra operands). -/
def doPrintf : Scan → GoString → List Value → Option GoString
  | .text, [], [] => some []
  | .text, [], _ :: _ => none
  | .text, c :: cs, a =>
    if c = '%' then doPrintf (.flags false false) cs a
    else (doPrintf .text cs a).map (c :: ·)
  | .flags _ _, [], _ => none
  | .flags m z, c :: cs, a =>
    if c = '-' then doPrintf (.flags true z) cs a
    else if c = '0' then doPrintf (.flags m true) cs a
    else if isDigit c then doPrintf (.width m z (c.toNat - 48)) cs a
    else
      match a with
      | [] => none
      | v :: a' =>
        match printArg m z none c v, doPrintf .text cs a' with
        | some out, some rest => some (out ++ rest)
        | _, _ => none
  | .width _ _ _, [], _ => none
  | .width m z n, c :: cs, a =>
    if isDigit c then
      if n > 1000000 then some ("%!(NOVERB)".toList ++ extraString a)
      else doPrintf (.width m z (n * 10 + (c.toNat - 48))) cs a
    else
      match a with
      | [] => none
      | v :: a' =>
        match printArg m z (some n) c v, doPrintf .text cs a' with
        | some out, some rest => some (out ++ rest)
        | _, _ => none

/-- The function `fmt.Sprintf`: the modelled fragment, and the environment for every other call. -/
def Sprintf (env : Env) (format : GoString) (a : List Value) : GoString :=
  (doPrintf .text format a).getD (env.fmtOther format a)

/-- Go `int` arithmetic on a 64-bit platform: wrap into the signed 64-bit range. -/
def wrapInt (x : Int) : Int := (x + 2 ^ 63) % 2 ^ 64 - 2 ^ 63

/-! ## types.go -/

/-- The ANSI escape sequence for the color Red -/
def ColorRed : GoString := "\x1b[31m".toList

/-- The ANSI escape sequence for the color Green -/
def ColorGreen : GoString := "\x1b[32m".toList

/-- The ANSI escape sequence for the color Yellow -/
def ColorYellow : GoString := "\x1b[33m".toList

/-- The ANSI escape sequence for the color Blue -/
def ColorBlue : GoString := "\x1b[34m".toList

/-- The ANSI escape sequence for the color Magenta -/
def ColorMagenta : GoString := "\x1b[35m".toList

/-- The ANSI escape sequence for the color Cyan -/
def ColorCyan : GoString := "\x1b[36m".toList

/-- The ANSI escape sequence for the color White -/
def ColorWhite : GoString := "\x1b[37m".toList

/-- The ANSI escape sequence for the color Gray -/
def ColorGray : GoString := "\x1b[30;1m".toList

/-- The ANSI escape sequence to reset the terminal color -/
def ColorReset : GoString := "\x1b[0m".toList

/-- The integer representation of the Trace log level -/
def TraceLevel : Int := 0

/-- The integer representation of the Debug log level -/
def DebugLevel : Int := 1

/-- The integer representation of the Info log level -/
def InfoLevel : Int := 2

/-- The integer representation of the Warning log level -/
def WarningLevel : Int := 3

/-- The integer representation of the Error log level -/
def ErrorLevel : Int := 4

/-- The integer representation of the Fatal log level -/
def FatalLevel : Int := 5

/-- The integer representation of the Panic log level -/
def PanicLevel : Int := 6

/-- The values an `io.Writer` field takes in this library. -/
inductive Writer
  /-- The nil interface value. -/
  | null
  /-- The stream `os.Stdout`. -/
  | stdout
  /-- The stream `os.Stderr`. -/
  | stderr
  /-- The sink `ioutil.Discard`. -/
  | discard
  /-- A file opened for appending on the path. -/
  | file (path : GoString)
  /-- An interface value holding the nil `*os.File` of a failed `os.OpenFile`. -/
  | nilFile
  /-- The writer `io.MultiWriter(a, b)`. -/
  | multi (a b : Writer)
  deriving DecidableEq

/-- The configured strings for each of the supported log levels. -/
structure LevelText where
  TRACE : GoString
  DEBUG : GoString
  INFO : GoString
  WARNING : GoString
  ERROR : GoString
  FATAL : GoString
  PANIC : GoString
  deriving DecidableEq

/-- The settings for a Logger object. -/
structure Config where
  LogToOutput : Bool
  LogToFile : Bool
  DebugFile : GoString
  InfoFile : GoString
  ErrorFile : GoString
  PrintTime : Bool
  TimePattern : GoString
  TimeColor : GoString
  PrintLevel : Bool
  LogLevel : Int
  LevelTextInnerFormat : GoString
  LevelTextOuterFormat : GoString
  LevelTextPadding : Int
  LevelTextLeftJustify : Bool
  LogPrefix : GoString
  LogSuffix : GoString
  DisableColors : Bool
  TraceColor : GoString
  DebugColor : GoString
  InfoColor : GoString
  WarningColor : GoString
  ErrorColor : GoString
  FatalColor : GoString
  PanicColor : GoString
  ResetColor : GoString
  LevelText : LevelText
  DebugWriter : Writer
  InfoWriter : Writer
  ErrorWriter : Writer
  deriving DecidableEq

/-- The definition of a logger, which is an abstraction of a Config (`type Logger Config`). -/
abbrev Logger := Config

/-- The zero value `Config{}`. -/
def Config.zero : Config where
  LogToOutput := false
  LogToFile := false
  DebugFile := []
  InfoFile := []
  ErrorFile := []
  PrintTime := false
  TimePattern := []
  TimeColor := []
  PrintLevel := false
  LogLevel := 0
  LevelTextInnerFormat := []
  LevelTextOuterFormat := []
  LevelTextPadding := 0
  LevelTextLeftJustify := false
  LogPrefix := []
  LogSuffix := []
  DisableColors := false
  TraceColor := []
  DebugColor := []
  InfoColor := []
  WarningColor := []
  ErrorColor := []
  FatalColor := []
  PanicColor := []
  ResetColor := []
  LevelText := ⟨[], [], [], [], [], [], []⟩
  DebugWriter := Writer.null
  InfoWriter := Writer.null
  ErrorWriter := Writer.null

/-! ## tinylog.go: the writer resolver -/

/-- Retrieve a generic writer.  The warning that the source logs when the file cannot
be opened goes to a logger of its own and is modelled by `getWriterWarning`; the value
returned is the one below: the failed open leaves `tmp` a nil `*os.File`, which is
still combined with, or returned instead of, the console writer. -/
def getWriter (env : Env) (logToFile : Bool) (fileOut : GoString) (writer : Writer) : Writer :=
  if logToFile = true ∧ fileOut ≠ [] then
    let tmp := if env.canOpen fileOut then Writer.file fileOut else Writer.nilFile
    if writer ≠ Writer.null then Writer.multi writer tmp else tmp
  else writer

/-- Retrieve the DebugWriter based on the specified config -/
def getDebugWriter (env : Env) (cfg : Config) : Writer :=
  let writer := if cfg.LogToOutput then Writer.stdout else Writer.null
  let debugWriter := getWriter env cfg.LogToFile cfg.DebugFile writer
  if debugWriter = Writer.null then Writer.discard else debugWriter

/-- Retrieve the InfoWriter based on the specified config -/
def getInfoWriter (env : Env) (cfg : Config) : Writer :=
  let writer := if cfg.LogToOutput then Writer.stdout else Writer.null
  let infoWriter := getWriter env cfg.LogToFile cfg.InfoFile writer
  if infoWriter = Writer.null then Writer.discard else infoWriter

/-- Retrieve the ErrorWriter based on the specified config -/
def getErrorWriter (env : Env) (cfg : Config) : Writer :=
  let writer := if cfg.LogToOutput then Writer.stderr else Writer.null
  let errorWriter := getWriter env cfg.LogToFile cfg.ErrorFile writer
  if errorWriter = Writer.null then Writer.discard else errorWriter

/-! ## functions.go: colours, tags, configuration -/

/-- Generate an ANSI color sequence from an escape code -/
def NewColor (code : GoString) : GoString := "\x1b[".toList ++ code ++ "m".toList

/-- The body of `GenerateTag`, on the five fields of the configuration that it reads. -/
def tagWith (env : Env) (tagText colorSequence : GoString)
    (innerFormat outerFormat resetColor : GoString) (padding : Int) (leftJustify : Bool) : GoString :=
  let formattedTag := Sprintf env "[%s%s%s]".toList
    [.str colorSequence, .str (Sprintf env innerFormat [.str tagText]), .str resetColor]
  let formattedTag := Sprintf env outerFormat [.str formattedTag]
  let displayLength : Int := len (removeAnsi formattedTag)
  let padLength := wrapInt (padding + (len formattedTag - displayLength))
  let padLength := if leftJustify then wrapInt (padLength * -1) else padLength
  let padString := "%".toList ++ Sprintf env "%v".toList [.int padLength] ++ "s".toList
  Sprintf env padString [.str formattedTag]

/-- Given some text, and a desired color, generate a string to use as a log level tag -/
def GenerateTag (env : Env) (tagText colorSequence : GoString) (cfg : Config) : GoString :=
  tagWith env tagText colorSequence cfg.LevelTextInnerFormat cfg.LevelTextOuterFormat
    cfg.ResetColor cfg.LevelTextPadding cfg.LevelTextLeftJustify

/-- Generate a new Config containing the preferred defaults -/
def NewConfig (env : Env) : Config :=
  let cfg : Config :=
    { Config.zero with
      LogToOutput := true
      LogToFile := false
      DebugFile := []
      InfoFile := []
      ErrorFile := []
      PrintTime := true
      TimePattern := "[Jan 02 2006 @ 15:04:05.000] ".toList
      TimeColor := ColorGray
      PrintLevel := true
      LogLevel := TraceLevel
      LevelTextInnerFormat := "%7s".toList
      LevelTextOuterFormat := "%s ".toList
      LevelTextPadding := 10
      LevelTextLeftJustify := false
      LogPrefix := []
      LogSuffix := "\n".toList
      DisableColors := false
      TraceColor := ColorWhite
      DebugColor := ColorGreen
      InfoColor := ColorCyan
      WarningColor := ColorYellow
      ErrorColor := ColorMagenta
      FatalColor := ColorRed
      PanicColor := ColorRed
      ResetColor := ColorReset }
  let cfg := { cfg with LevelText := { cfg.LevelText with TRACE := GenerateTag env "TRACE".toList cfg.TraceColor cfg } }
  let cfg := { cfg with LevelText := { cfg.LevelText with DEBUG := GenerateTag env "DEBUG".toList cfg.DebugColor cfg } }
  let cfg := { cfg with LevelText := { cfg.LevelText with INFO := GenerateTag env "INFO".toList cfg.InfoColor cfg } }
  let cfg := { cfg with LevelText := { cfg.LevelText with WARNING := GenerateTag env "WARNING".toList cfg.WarningColor cfg } }
  let cfg := { cfg with LevelText := { cfg.LevelText with ERROR := GenerateTag env "ERROR".toList cfg.ErrorColor cfg } }
  let cfg := { cfg with LevelText := { cfg.LevelText with FATAL := GenerateTag env "FATAL".toList cfg.FatalColor cfg } }
  let cfg := { cfg with LevelText := { cfg.LevelText with PANIC := GenerateTag env "PANIC".toList cfg.PanicColor cfg } }
  let cfg := { cfg with DebugWriter := getDebugWriter env cfg }
  let cfg := { cfg with InfoWriter := getInfoWriter env cfg }
  let cfg := { cfg with ErrorWriter := getErrorWriter env cfg }
  cfg

/-- The first step of `ApplyConfig`: under `DisableColors` the seven level colours and
the reset colour are set to the empty string. -/
def disableColors (cfg : Config) : Config :=
  if cfg.DisableColors then
    { cfg with
      TraceColor := []
      DebugColor := []
      InfoColor := []
      WarningColor := []
      ErrorColor := []
      FatalColor := []
      PanicColor := []
      ResetColor := [] }
  else cfg

/-- The flag `formattingChanged` of `ApplyConfig`. -/
def formattingChanged (cfg defaults : Config) : Bool :=
  let formattingChanged := cfg.LevelTextInnerFormat != defaults.LevelTextInnerFormat
  let formattingChanged := formattingChanged || cfg.LevelTextOuterFormat != defaults.LevelTextOuterFormat
  let formattingChanged := formattingChanged || cfg.LevelTextLeftJustify != defaults.LevelTextLeftJustify
  let formattingChanged := formattingChanged || cfg.LevelTextPadding != defaults.LevelTextPadding
  formattingChanged

/-- The statement of `ApplyConfig` that regenerates `LevelText.TRACE`. -/
def regenTrace (env : Env) (defaults : Config) (formattingChanged : Bool) (cfg : Config) : Config :=
  if cfg.LevelText.TRACE = defaults.LevelText.TRACE ∧
      (cfg.TraceColor ≠ defaults.TraceColor ∨ formattingChanged = true) then
    { cfg with LevelText := { cfg.LevelText with TRACE := GenerateTag env "TRACE".toList cfg.TraceColor cfg } }
  else cfg

/-- The statement of `ApplyConfig` that regenerates `LevelText.DEBUG`. -/
def regenDebug (env : Env) (defaults : Config) (formattingChanged : Bool) (cfg : Config) : Config :=
  if cfg.LevelText.DEBUG = defaults.LevelText.DEBUG ∧
      (cfg.DebugColor ≠ defaults.DebugColor ∨ formattingChanged = true) then
    { cfg with LevelText := { cfg.LevelText with DEBUG := GenerateTag env "DEBUG".toList cfg.DebugColor cfg } }
  else cfg

/-- The statement of `ApplyConfig` that regenerates `LevelText.INFO`. -/
def regenInfo (env : Env) (defaults : Config) (formattingChanged : Bool) (cfg : Config) : Config :=
  if cfg.LevelText.INFO = defaults.LevelText.INFO ∧
      (cfg.InfoColor ≠ defaults.InfoColor ∨ formattingChanged = true) then
    { cfg with LevelText := { cfg.LevelText with INFO := GenerateTag env "INFO".toList cfg.InfoColor cfg } }
  else cfg

/-- The statement of `ApplyConfig` that regenerates `LevelText.WARNING`. -/
def regenWarning (env : Env) (defaults : Config) (formattingChanged : Bool) (cfg : Config) : Config :=
  if cfg.LevelText.WARNING = defaults.LevelText.WARNING ∧
      (cfg.WarningColor ≠ defaults.WarningColor ∨ formattingChanged = true) then
    { cfg with LevelText := { cfg.LevelText with WARNING := GenerateTag env "WARNING".toList cfg.WarningColor cfg } }
  else cfg

/-- The statement of `ApplyConfig` that regenerates `LevelText.ERROR`. -/
def regenError (env : Env) (defaults : Config) (formattingChanged : Bool) (cfg : Config) : Config :=
  if cfg.LevelText.ERROR = defaults.LevelText.ERROR ∧
      (cfg.ErrorColor ≠ defaults.ErrorColor ∨ formattingChanged = true) then
    { cfg with LevelText := { cfg.LevelText with ERROR := GenerateTag env "ERROR".toList cfg.ErrorColor cfg } }
  else cfg

/-- The statement of `ApplyConfig` that regenerates `LevelText.FATAL`. -/
def regenFatal (env : Env) (defaults : Config) (formattingChanged : Bool) (cfg : Config) : Config :=
  if cfg.LevelText.FATAL = defaults.LevelText.FATAL ∧
      (cfg.FatalColor ≠ defaults.FatalColor ∨ formattingChanged = true) then
    { cfg with LevelText := { cfg.LevelText with FATAL := GenerateTag env "FATAL".toList cfg.FatalColor cfg } }
  else cfg

/-- The statement of `ApplyConfig` that regenerates `LevelText.PANIC`. -/
def regenPanic (env : Env) (defaults : Config) (formattingChanged : Bool) (cfg : Config) : Config :=
  if cfg.LevelText.PANIC = defaults.LevelText.PANIC ∧
      (cfg.PanicColor ≠ defaults.PanicColor ∨ formattingChanged = true) then
    { cfg with LevelText := { cfg.LevelText with PANIC := GenerateTag env "PANIC".toList cfg.PanicColor cfg } }
  else cfg

/-- Apply a configuration to an existing logger.  The result is the new value of `*l`;
the receiver `l` is the logger before the call. -/
def ApplyConfig (env : Env) (l : Logger) (cfg : Config) : Logger :=
  let cfg := disableColors cfg
  let defaults := NewConfig env
  let formattingChanged := formattingChanged cfg defaults
  let cfg := regenTrace env defaults formattingChanged cfg
  let cfg := regenDebug env defaults formattingChanged cfg
  let cfg := regenInfo env defaults formattingChanged cfg
  let cfg := regenWarning env defaults formattingChanged cfg
  let cfg := regenError env defaults formattingChanged cfg
  let cfg := regenFatal env defaults formattingChanged cfg
  let cfg := regenPanic env defaults formattingChanged cfg
  let cfg := { cfg with DebugWriter := getDebugWriter env cfg }
  let cfg := { cfg with InfoWriter := getInfoWriter env cfg }
  let cfg := { cfg with ErrorWriter := getErrorWriter env cfg }
  cfg

/-- Generate a new logger from a given configuration -/
def NewLogger (env : Env) (cfg : Config) : Logger :=
  let logger : Logger := cfg
  ApplyConfig env logger logger

/-- Get a new logger with a default config -/
def DefaultLogger (env : Env) : Logger := NewLogger env (NewConfig env)

/-- Conveniently create a new logger with a given tag -/
def NewTaggedLogger (env : Env) (logTag logColor : GoString) : Logger :=
  let cfg := NewConfig env
  let cfg := { cfg with LogPrefix := GenerateTag env logTag logColor cfg }
  NewLogger env cfg

/-! ## tinylog.go: the emitter -/

/-- How a call ended. -/
inductive Outcome
  /-- The call returned to its caller. -/
  | returned
  /-- The call ended the process with `os.Exit(code)`. -/
  | exited (code : Int)
  /-- The call ended with `panic(msg)`. -/
  | panicked (msg : GoString)
  /-- The call ended with the runtime fault of calling `Write` on a nil `io.Writer`. -/
  | nilWriter
  deriving DecidableEq

/-- The observable effect of a logging call: the `Write` calls it issued, each with its
writer and its bytes, and how it ended. -/
structure Run where
  writes : List (Writer × GoString)
  outcome : Outcome
  deriving DecidableEq

/-- Create a formatted time string based on the current config -/
def generateTimeString (env : Env) (l : Logger) : GoString :=
  if l.PrintTime then l.TimeColor ++ env.now l.TimePattern ++ l.ResetColor
  else []

/-- Log a message -/
def doLog (env : Env) (l : Logger) (writer : Writer) (level : Int) (levelText msg : GoString) : Run :=
  if level ≥ l.LogLevel then
    if writer = Writer.null then ⟨[], .nilWriter⟩
    else ⟨[(writer, generateTimeString env l ++ l.LogPrefix ++ levelText ++ msg ++ l.LogSuffix)], .returned⟩
  else ⟨[], .returned⟩

/-- Log a formatted message -/
def doLogf (env : Env) (l : Logger) (writer : Writer) (level : Int) (levelText format : GoString)
    (args : List Value) : Run :=
  if level ≥ l.LogLevel then doLog env l writer level levelText (Sprintf env format args)
  else ⟨[], .returned⟩

/-- Run the statement that follows a logging call, unless the call did not return. -/
def Run.andThen (r : Run) (next : Outcome) : Run :=
  match r.outcome with
  | .returned => ⟨r.writes, next⟩
  | _ => r

/-! ## functions.go: the logging methods -/

/-- Method `Trace`. -/
def Trace (env : Env) (l : Logger) (msg : GoString) : Run :=
  doLog env l l.DebugWriter TraceLevel l.LevelText.TRACE msg

/-- Method `Tracef`. -/
def Tracef (env : Env) (l : Logger) (format : GoString) (args : List Value) : Run :=
  doLogf env l l.DebugWriter TraceLevel l.LevelText.TRACE format args

/-- Method `Debug`. -/
def Debug (env : Env) (l : Logger) (msg : GoString) : Run :=
  doLog env l l.DebugWriter DebugLevel l.LevelText.DEBUG msg

/-- Method `Debugf`. -/
def Debugf (env : Env) (l : Logger) (format : GoString) (args : List Value) : Run :=
  doLogf env l l.DebugWriter DebugLevel l.LevelText.DEBUG format args

/-- Method `Info`. -/
def Info (env : Env) (l : Logger) (msg : GoString) : Run :=
  doLog env l l.InfoWriter InfoLevel l.LevelText.INFO msg

/-- Method `Infof`. -/
def Infof (env : Env) (l : Logger) (format : GoString) (args : List Value) : Run :=
  doLogf env l l.InfoWriter InfoLevel l.LevelText.INFO format args

/-- Method `Warning`. -/
def Warning (env : Env) (l : Logger) (msg : GoString) : Run :=
  doLog env l l.InfoWriter WarningLevel l.LevelText.WARNING msg

/-- Method `Warningf`. -/
def Warningf (env : Env) (l : Logger) (format : GoString) (args : List Value) : Run :=
  doLogf env l l.InfoWriter WarningLevel l.LevelText.WARNING format args

/-- Method `Warn`. -/
def Warn (env : Env) (l : Logger) (msg : GoString) : Run :=
  Warning env l msg

/-- Method `Warnf`. -/
def Warnf (env : Env) (l : Logger) (format : GoString) (args : List Value) : Run :=
  Warningf env l format args

/-- Method `Error`. -/
def Error (env : Env) (l : Logger) (msg : GoString) : Run :=
  doLog env l l.ErrorWriter ErrorLevel l.LevelText.ERROR msg

/-- Method `Errorf`. -/
def Errorf (env : Env) (l : Logger) (format : GoString) (args : List Value) : Run :=
  doLogf env l l.ErrorWriter ErrorLevel l.LevelText.ERROR format args

/-- Method `Fatal`. -/
def Fatal (env : Env) (l : Logger) (msg : GoString) : Run :=
  (doLog env l l.ErrorWriter FatalLevel l.LevelText.FATAL msg).andThen (.exited 1)

/-- Method `Fatalf`. -/
def Fatalf (env : Env) (l : Logger) (format : GoString) (args : List Value) : Run :=
  (doLogf env l l.ErrorWriter FatalLevel l.LevelText.FATAL format args).andThen (.exited 1)

/-- Method `Panic`. -/
def Panic (env : Env) (l : Logger) (msg : GoString) : Run :=
  (doLog env l l.ErrorWriter PanicLevel l.LevelText.PANIC msg).andThen (.panicked msg)

/-- Method `Panicf`. -/
def Panicf (env : Env) (l : Logger) (format : GoString) (args : List Value) : Run :=
  (doLogf env l l.ErrorWriter PanicLevel l.LevelText.PANIC format args).andThen
    (.panicked (Sprintf env format args))

/-- The logging that `getWriter` does on its way: when file logging is on, the path is
not empty and the open fails, a warning goes through `NewLogger(Config{})`. -/
def getWriterWarning (env : Env) (logToFile : Bool) (fileOut : GoString) : Run :=
  if logToFile = true ∧ fileOut ≠ [] ∧ env.canOpen fileOut = false then
    Warningf env (NewLogger env Config.zero) "Failed to open log file for writing: %s".toList [.str fileOut]
  else ⟨[], .returned⟩

/-! ## Vocabulary of the properties -/

/-- The seven severities. -/
inductive Severity
  | TRACE | DEBUG | INFO | WARNING | ERROR | FATAL | PANIC
  deriving DecidableEq

/-- The level constant of a severity. -/
def Severity.level : Severity → Int
  | .TRACE => TraceLevel
  | .DEBUG => DebugLevel
  | .INFO => InfoLevel
  | .WARNING => WarningLevel
  | .ERROR => ErrorLevel
  | .FATAL => FatalLevel
  | .PANIC => PanicLevel

/-- The label that `NewConfig` and `ApplyConfig` pass to `GenerateTag` for a severity. -/
def Severity.label : Severity → GoString
  | .TRACE => "TRACE".toList
  | .DEBUG => "DEBUG".toList
  | .INFO => "INFO".toList
  | .WARNING => "WARNING".toList
  | .ERROR => "ERROR".toList
  | .FATAL => "FATAL".toList
  | .PANIC => "PANIC".toList

/-- The tag stored for a severity. -/
def Severity.tag : Severity → LevelText → GoString
  | .TRACE, t => t.TRACE
  | .DEBUG, t => t.DEBUG
  | .INFO, t => t.INFO
  | .WARNING, t => t.WARNING
  | .ERROR, t => t.ERROR
  | .FATAL, t => t.FATAL
  | .PANIC, t => t.PANIC

/-- The colour configured for a severity. -/
def Severity.color : Severity → Config → GoString
  | .TRACE, c => c.TraceColor
  | .DEBUG, c => c.DebugColor
  | .INFO, c => c.InfoColor
  | .WARNING, c => c.WarningColor
  | .ERROR, c => c.ErrorColor
  | .FATAL, c => c.FatalColor
  | .PANIC, c => c.PanicColor

/-- The sink of the band of a severity: TRACE and DEBUG the debug sink, INFO and
WARNING the info sink, ERROR, FATAL and PANIC the error sink. -/
def Severity.writer : Severity → Logger → Writer
  | .TRACE, l => l.DebugWriter
  | .DEBUG, l => l.DebugWriter
  | .INFO, l => l.InfoWriter
  | .WARNING, l => l.InfoWriter
  | .ERROR, l => l.ErrorWriter
  | .FATAL, l => l.ErrorWriter
  | .PANIC, l => l.ErrorWriter

/-- The public logging methods. -/
inductive Method
  | Trace | Tracef | Debug | Debugf | Info | Infof | Warning | Warningf | Warn | Warnf | Error | Errorf | Fatal | Fatalf | Panic | Panicf
  deriving DecidableEq

/-- The severity a method is named after. -/
def Method.severity : Method → Severity
  | .Trace => .TRACE
  | .Tracef => .TRACE
  | .Debug => .DEBUG
  | .Debugf => .DEBUG
  | .Info => .INFO
  | .Infof => .INFO
  | .Warning => .WARNING
  | .Warningf => .WARNING
  | .Warn => .WARNING
  | .Warnf => .WARNING
  | .Error => .ERROR
  | .Errorf => .ERROR
  | .Fatal => .FATAL
  | .Fatalf => .FATAL
  | .Panic => .PANIC
  | .Panicf => .PANIC

/-- Whether the method is a formatted variant. -/
def Method.formatted : Method → Bool
  | .Trace => false
  | .Tracef => true
  | .Debug => false
  | .Debugf => true
  | .Info => false
  | .Infof => true
  | .Warning => false
  | .Warningf => true
  | .Warn => false
  | .Warnf => true
  | .Error => false
  | .Errorf => true
  | .Fatal => false
  | .Fatalf => true
  | .Panic => false
  | .Panicf => true

/-- A call of a method.  A plain method takes `text` as its message; a formatted
variant takes it as its format, with the operands `args`. -/
def Method.call (m : Method) (env : Env) (l : Logger) (text : GoString) (args : List Value) : Run :=
  match m with
  | .Trace => Tinylog.Trace env l text
  | .Tracef => Tinylog.Tracef env l text args
  | .Debug => Tinylog.Debug env l text
  | .Debugf => Tinylog.Debugf env l text args
  | .Info => Tinylog.Info env l text
  | .Infof => Tinylog.Infof env l text args
  | .Warning => Tinylog.Warning env l text
  | .Warningf => Tinylog.Warningf env l text args
  | .Warn => Tinylog.Warn env l text
  | .Warnf => Tinylog.Warnf env l text args
  | .Error => Tinylog.Error env l text
  | .Errorf => Tinylog.Errorf env l text args
  | .Fatal => Tinylog.Fatal env l text
  | .Fatalf => Tinylog.Fatalf env l text args
  | .Panic => Tinylog.Panic env l text
  | .Panicf => Tinylog.Panicf env l text args

/-- The message of a call: the text itself, or the formatted text. -/
def Method.message (m : Method) (env : Env) (text : GoString) (args : List Value) : GoString :=
  if m.formatted then Sprintf env text args else text

/-- The line that `doLog` assembles. -/
def logLine (env : Env) (l : Logger) (levelText msg : GoString) : GoString :=
  (if l.PrintTime then l.TimeColor ++ env.now l.TimePattern ++ l.ResetColor else []) ++
    l.LogPrefix ++ levelText ++ msg ++ l.LogSuffix

/-- A concrete environment for the worked examples: a fixed clock, every path can be
opened, and the empty string for the calls of `fmt.Sprintf` outside the fragment. -/
def Env.sample : Env where
  now := fun _ => "[Nov 04 2026 @ 12:00:00.000] ".toList
  canOpen := fun _ => true
  fmtOther := fun _ _ => []

/-- The tag that a regeneration step of `ApplyConfig` leaves: generated anew when the
stored tag is the default one and the colour or the formatting left the defaults. -/
def newTag (tag defTag color defColor : GoString) (changed : Bool) (generated : GoString) : GoString :=
  if tag = defTag ∧ (color ≠ defColor ∨ changed = true) then generated else tag

/-- A default logger of the sample environment whose threshold is WARNING. -/
def warningLogger : Logger := { DefaultLogger Env.sample with LogLevel := WarningLevel }

/-- The state that `ApplyConfig` assigns to the logger, given the configuration after
the `DisableColors` step and the defaults it is compared with. -/
def reconciled (env : Env) (c d : Config) : Config :=
  { c with
    LevelText :=
      {
        TRACE := newTag c.LevelText.TRACE d.LevelText.TRACE c.TraceColor d.TraceColor
          (formattingChanged c d) (GenerateTag env "TRACE".toList c.TraceColor c)
        DEBUG := newTag c.LevelText.DEBUG d.LevelText.DEBUG c.DebugColor d.DebugColor
          (formattingChanged c d) (GenerateTag env "DEBUG".toList c.DebugColor c)
        INFO := newTag c.LevelText.INFO d.LevelText.INFO c.InfoColor d.InfoColor
          (formattingChanged c d) (GenerateTag env "INFO".toList c.InfoColor c)
        WARNING := newTag c.LevelText.WARNING d.LevelText.WARNING c.WarningColor d.WarningColor
          (formattingChanged c d) (GenerateTag env "WARNING".toList c.WarningColor c)
        ERROR := newTag c.LevelText.ERROR d.LevelText.ERROR c.ErrorColor d.ErrorColor
          (formattingChanged c d) (GenerateTag env "ERROR".toList c.ErrorColor c)
        FATAL := newTag c.LevelText.FATAL d.LevelText.FATAL c.FatalColor d.FatalColor
          (formattingChanged c d) (GenerateTag env "FATAL".toList c.FatalColor c)
        PANIC := newTag c.LevelText.PANIC d.LevelText.PANIC c.PanicColor d.PanicColor
          (formattingChanged c d) (GenerateTag env "PANIC".toList c.PanicColor c)
      }
    DebugWriter := getDebugWriter env c
    InfoWriter := getInfoWriter env c
    ErrorWriter := getErrorWriter env c }

/-- The default configuration of the sample environment with a custom INFO tag and a
new INFO colour. -/
def customConfig : Config :=
  { NewConfig Env.sample with
    LevelText := { (NewConfig Env.sample).LevelText with INFO := "[CUSTOM]".toList }
    InfoColor := ColorBlue }

/-- The sample environment with a file system on which no path can be opened. -/
def Env.noFiles : Env where
  now := fun _ => "[Nov 04 2026 @ 12:00:00.000] ".toList
  canOpen := fun _ => false
  fmtOther := fun _ _ => []

/-- The default configuration with colours disabled. -/
def plainConfig : Config := { NewConfig Env.sample with DisableColors := true }

/-- The default configuration with level printing switched off. -/
def noLevelConfig : Config := { NewConfig Env.sample with PrintLevel := false }

/-- The default configuration with file logging on and a log file for each band. -/
def fileConfig : Config :=
  { NewConfig Env.noFiles with
    LogToFile := true
    DebugFile := "/nodir/debug.log".toList
    InfoFile := "/nodir/info.log".toList
    ErrorFile := "/nodir/error.log".toList }

/-- The configuration `fileConfig` without console output. -/
def fileOnlyConfig : Config := { fileConfig with LogToOutput := false }

/-- The default configuration whose INFO tag was set to the default WARNING tag. -/
def borrowedTagConfig : Config :=
  { NewConfig Env.sample with
    LevelText := { (NewConfig Env.sample).LevelText with INFO := (NewConfig Env.sample).LevelText.WARNING }
    InfoColor := ColorBlue }

/-- The default configuration with a new INFO colour and the default INFO tag. -/
def blueConfig : Config := { NewConfig Env.sample with InfoColor := ColorBlue }

/-- The body of `GenerateTag` on the fragment of `fmt` that `doPrintf` models: the tag
when each of its five calls of `fmt.Sprintf` stays within the fragment, and `none` as
soon as one leaves it.  It does not depend on the environment. -/
def tagPure (tagText colorSequence innerFormat outerFormat resetColor : GoString)
    (padding : Int) (leftJustify : Bool) : Option GoString :=
  (doPrintf .text innerFormat [.str tagText]).bind fun inner =>
  (doPrintf .text "[%s%s%s]".toList [.str colorSequence, .str inner, .str resetColor]).bind
    fun bracketed =>
  (doPrintf .text outerFormat [.str bracketed]).bind fun formattedTag =>
  (doPrintf .text "%v".toList
    [.int (if leftJustify then
        wrapInt (wrapInt (padding + (len formattedTag - len (removeAnsi formattedTag))) * -1)
      else wrapInt (padding + (len formattedTag - len (removeAnsi formattedTag))))]).bind fun num =>
  doPrintf .text ("%".toList ++ num ++ "s".toList) [.str formattedTag]

/-- The seven level tags without colours, in the default formats and padding. -/
def plainTag : Severity → GoString
  | .TRACE => "[  TRACE] ".toList
  | .DEBUG => "[  DEBUG] ".toList
  | .INFO => "[   INFO] ".toList
  | .WARNING => "[WARNING] ".toList
  | .ERROR => "[  ERROR] ".toList
  | .FATAL => "[  FATAL] ".toList
  | .PANIC => "[  PANIC] ".toList

/-- The tag before padding, as `GenerateTag` builds it: the bracketed tag
`"[" + colour + inner(label) + ResetColor + "]"` under the outer format. -/
def bracketTag (env : Env) (tagText colorSequence : GoString) (cfg : Config) : GoString :=
  Sprintf env cfg.LevelTextOuterFormat
    [.str (Sprintf env "[%s%s%s]".toList
      [.str colorSequence, .str (Sprintf env cfg.LevelTextInnerFormat [.str tagText]), .str cfg.ResetColor])]

/-- The pad width that `GenerateTag` computes: the padding plus the bytes that
`removeAnsi` takes away from the tag. -/
def padWidth (env : Env) (tagText colorSequence : GoString) (cfg : Config) : Int :=
  cfg.LevelTextPadding +
    ((len (bracketTag env tagText colorSequence cfg) : Int) -
      (len (removeAnsi (bracketTag env tagText colorSequence cfg)) : Int))

/-- The default configuration with a padding of twelve. -/
def widePadConfig : Config := { NewConfig Env.sample with LevelTextPadding := 12 }

/-- The default configuration with a padding of twenty-five. -/
def pad25Config : Config := { NewConfig Env.sample with LevelTextPadding := 25 }

/-- The default configuration with a padding of 10000001: with the nine bytes of the
default colour sequences the pad width is 10000010. -/
def hugePadConfig : Config := { NewConfig Env.sample with LevelTextPadding := 10000001 }

/-- A colour code made of digits and semicolons in which no run of digits is longer
than four; the counter is the number of digits of the run being read. -/
def codeFrom : Nat → GoString → Bool
  | _, [] => true
  | k, c :: cs =>
    if c = ';' then codeFrom 0 cs else isDigit c && decide (k < 4) && codeFrom (k + 1) cs

/-- The colour codes with numbers of at most four digits, such as `36` and `38;5;208`. -/
def codeOk (code : GoString) : Bool := codeFrom 0 code

/-- A text free of the characters that start or end an escape sequence: the escape
character, the control sequence introducer and the bell. -/
def plainText (s : GoString) : Bool := s.all fun c => c != ESC && c != CSI && c != BEL

/-- The ranges of the class `[[\]()#;?]`. -/
def punctClass : List (Char × Char) :=
  [('[', '['), (']', ']'), ('(', '('), (')', ')'), ('#', '#'), (';', ';'), ('?', '?')]

/-! # Properties -/

/-! ## The emitter: level filter, line, sink and tag -/

theorem doLog_writes (env : Env) (l : Logger) (writer : Writer) (level : Int)
    (levelText msg : GoString) :
    (doLog env l writer level levelText msg).writes =
      if level ≥ l.LogLevel ∧ writer ≠ Writer.null then [(writer, logLine env l levelText msg)]
      else [] := by
  unfold doLog logLine generateTimeString
  by_cases h : level ≥ l.LogLevel <;> by_cases hw : writer = Writer.null <;> simp [h, hw]

theorem doLogf_writes (env : Env) (l : Logger) (writer : Writer) (level : Int)
    (levelText format : GoString) (args : List Value) :
    (doLogf env l writer level levelText format args).writes =
      if level ≥ l.LogLevel ∧ writer ≠ Writer.null then
        [(writer, logLine env l levelText (Sprintf env format args))]
      else [] := by
  unfold doLogf
  by_cases h : level ≥ l.LogLevel
  · simp only [h, if_true, doLog_writes]
  · simp [h]

theorem andThen_writes (r : Run) (next : Outcome) : (r.andThen next).writes = r.writes := by
  unfold Run.andThen
  split <;> rfl

/-- The writes of every method, in one formula. -/
theorem call_writes (env : Env) (l : Logger) (m : Method) (text : GoString) (args : List Value) :
    (m.call env l text args).writes =
      if m.severity.level ≥ l.LogLevel ∧ m.severity.writer l ≠ Writer.null then
        [(m.severity.writer l, logLine env l (m.severity.tag l.LevelText) (m.message env text args))]
      else [] := by
  cases m <;>
    simp only [Method.call, Trace, Tracef, Debug, Debugf, Info, Infof, Warning, Warningf, Warn,
      Warnf, Error, Errorf, Fatal, Fatalf, Panic, Panicf, andThen_writes, doLog_writes,
      doLogf_writes, Method.severity, Severity.level, Severity.writer, Severity.tag,
      Method.message, Method.formatted, if_true, Bool.false_eq_true, if_false]

/-- C1. A logging method of severity L, called on a logger whose threshold is S and
whose sink for the band of L is not nil, writes to that sink if and only if L >= S, and
then exactly one line; a call with L < S issues no write at all. -/
theorem threshold_filter (env : Env) (l : Logger) (m : Method) (text : GoString)
    (args : List Value) (hw : m.severity.writer l ≠ Writer.null) :
    ((∃ line, (m.call env l text args).writes = [(m.severity.writer l, line)]) ↔
        m.severity.level ≥ l.LogLevel) ∧
      ((m.call env l text args).writes = [] ↔ m.severity.level < l.LogLevel) := by
  rw [call_writes]
  by_cases h : m.severity.level ≥ l.LogLevel
  · simp [h, hw]
  · simp only [h, false_and, if_false]
    constructor
    · simp
    · simp only [true_iff]
      omega

theorem threshold_filter_witness :
    (Method.Info.severity.writer warningLogger ≠ Writer.null ∧
        Method.Info.severity.level < warningLogger.LogLevel ∧
        (Method.Info.call Env.sample warningLogger "x".toList []).writes = []) ∧
      (Method.Warning.severity.writer warningLogger ≠ Writer.null ∧
        Method.Warning.severity.level ≥ warningLogger.LogLevel ∧
        ∃ line, (Method.Warning.call Env.sample warningLogger "x".toList []).writes =
          [(Method.Warning.severity.writer warningLogger, line)]) :=
  ⟨⟨by decide!, by decide!,
      (threshold_filter Env.sample warningLogger Method.Info "x".toList [] (by decide!)).2.mpr
        (by decide!)⟩,
    ⟨by decide!, by decide!,
      (threshold_filter Env.sample warningLogger Method.Warning "x".toList [] (by decide!)).1.mpr
        (by decide!)⟩⟩

/-- The zero-value logger has nil sinks: `Info("x")` passes the threshold 0 and yet
nothing is written, the call faults on `Write`. -/
theorem info_on_nil_writer :
    Method.Info.severity.level ≥ Config.zero.LogLevel ∧
      Method.Info.severity.writer Config.zero = Writer.null ∧
      (Method.Info.call Env.sample Config.zero "x".toList []).writes = [] ∧
      Info Env.sample Config.zero "x".toList = ⟨[], Outcome.nilWriter⟩ := by
  decide!

/-- The scenario of the threshold WARNING: `Info("x")` writes nothing, `Warning("x")`
writes exactly one line, with the WARNING tag and the suffix. -/
theorem threshold_scenario :
    (Info Env.sample warningLogger "x".toList).writes = [] ∧
      (Warning Env.sample warningLogger "x".toList).writes =
        [(Writer.stdout,
          "\x1b[30;1m[Nov 04 2026 @ 12:00:00.000] \x1b[0m[\x1b[33mWARNING\x1b[0m] x\n".toList)] := by
  decide!

/-- C2. On a writer that is not nil and a level at or above the threshold, `doLog` performs
exactly one write, of the bytes timeString + LogPrefix + levelText + msg + LogSuffix in
that order, where timeString is empty when PrintTime is false and
TimeColor + formatted time + ResetColor when it is true. -/
theorem doLog_single_write (env : Env) (l : Logger) (writer : Writer) (level : Int)
    (levelText msg : GoString) (hlevel : level ≥ l.LogLevel) (hw : writer ≠ Writer.null) :
    (doLog env l writer level levelText msg).writes =
        [(writer,
          (if l.PrintTime = true then l.TimeColor ++ env.now l.TimePattern ++ l.ResetColor else []) ++
            l.LogPrefix ++ levelText ++ msg ++ l.LogSuffix)] ∧
      (doLog env l writer level levelText msg).outcome = Outcome.returned := by
  unfold doLog generateTimeString
  simp [hlevel, hw]

theorem doLog_single_write_witness :
    InfoLevel ≥ (DefaultLogger Env.sample).LogLevel ∧ Writer.stdout ≠ Writer.null ∧
      (doLog Env.sample (DefaultLogger Env.sample) Writer.stdout InfoLevel "[I] ".toList
            "hello".toList).writes =
        [(Writer.stdout,
          (if (DefaultLogger Env.sample).PrintTime = true then
              (DefaultLogger Env.sample).TimeColor ++
                Env.sample.now (DefaultLogger Env.sample).TimePattern ++
                (DefaultLogger Env.sample).ResetColor
            else []) ++
            (DefaultLogger Env.sample).LogPrefix ++ "[I] ".toList ++ "hello".toList ++
            (DefaultLogger Env.sample).LogSuffix)] ∧
      (doLog Env.sample (DefaultLogger Env.sample) Writer.stdout InfoLevel "[I] ".toList
            "hello".toList).outcome = Outcome.returned :=
  ⟨by decide!, by decide,
    doLog_single_write Env.sample (DefaultLogger Env.sample) Writer.stdout InfoLevel
      "[I] ".toList "hello".toList (by decide!) (by decide)⟩

/-- The zero-value logger and its nil InfoWriter: the level passes the threshold, and
`doLog` issues no write; the call of `Write` on the nil writer faults. -/
theorem doLog_on_nil_writer :
    InfoLevel ≥ Config.zero.LogLevel ∧ Config.zero.InfoWriter = Writer.null ∧
      (doLog Env.sample Config.zero Config.zero.InfoWriter InfoLevel [] "x".toList).writes = [] ∧
      doLog Env.sample Config.zero Config.zero.InfoWriter InfoLevel [] "x".toList =
        ⟨[], Outcome.nilWriter⟩ := by
  decide!

/-- C3. Every write of a public logging method goes to the sink of the band of its
severity and carries the tag of its own severity: Trace and Debug write to DebugWriter
with LevelText.TRACE and LevelText.DEBUG, Info and Warning (Warn) to InfoWriter with
LevelText.INFO and LevelText.WARNING, Error, Fatal and Panic to ErrorWriter with
LevelText.ERROR, FATAL and PANIC, and so do their f-variants; no method writes to
another sink, and the write happens whenever the level passes and the sink is present. -/
theorem method_sink_and_tag (env : Env) (l : Logger) (m : Method) (text : GoString)
    (args : List Value) :
    (∀ w ∈ (m.call env l text args).writes,
        w.1 = m.severity.writer l ∧
          w.2 = generateTimeString env l ++ l.LogPrefix ++ m.severity.tag l.LevelText ++
            m.message env text args ++ l.LogSuffix) ∧
      (m.severity.level ≥ l.LogLevel → m.severity.writer l ≠ Writer.null →
        (m.call env l text args).writes =
          [(m.severity.writer l,
            generateTimeString env l ++ l.LogPrefix ++ m.severity.tag l.LevelText ++
              m.message env text args ++ l.LogSuffix)]) := by
  have hline : ∀ t msg, logLine env l t msg =
      generateTimeString env l ++ l.LogPrefix ++ t ++ msg ++ l.LogSuffix := by
    intro t msg
    unfold logLine generateTimeString
    rfl
  rw [call_writes, hline]
  constructor
  · intro w hmem
    split at hmem
    · simp only [List.mem_singleton] at hmem
      subst hmem
      exact ⟨rfl, rfl⟩
    · simp at hmem
  · intro h1 h2
    simp [h1, h2]

/-! ## The configuration reconciler -/

theorem regenTrace_with (env : Env) (d : Config) (fc : Bool) (c : Config) (lt : LevelText) :
    regenTrace env d fc { c with LevelText := lt } =
      { c with LevelText := { lt with
          TRACE := newTag lt.TRACE d.LevelText.TRACE c.TraceColor d.TraceColor fc
            (GenerateTag env "TRACE".toList c.TraceColor c) } } := by
  unfold regenTrace newTag
  split <;> rfl

theorem regenDebug_with (env : Env) (d : Config) (fc : Bool) (c : Config) (lt : LevelText) :
    regenDebug env d fc { c with LevelText := lt } =
      { c with LevelText := { lt with
          DEBUG := newTag lt.DEBUG d.LevelText.DEBUG c.DebugColor d.DebugColor fc
            (GenerateTag env "DEBUG".toList c.DebugColor c) } } := by
  unfold regenDebug newTag
  split <;> rfl

theorem regenInfo_with (env : Env) (d : Config) (fc : Bool) (c : Config) (lt : LevelText) :
    regenInfo env d fc { c with LevelText := lt } =
      { c with LevelText := { lt with
          INFO := newTag lt.INFO d.LevelText.INFO c.InfoColor d.InfoColor fc
            (GenerateTag env "INFO".toList c.InfoColor c) } } := by
  unfold regenInfo newTag
  split <;> rfl

theorem regenWarning_with (env : Env) (d : Config) (fc : Bool) (c : Config) (lt : LevelText) :
    regenWarning env d fc { c with LevelText := lt } =
      { c with LevelText := { lt with
          WARNING := newTag lt.WARNING d.LevelText.WARNING c.WarningColor d.WarningColor fc
            (GenerateTag env "WARNING".toList c.WarningColor c) } } := by
  unfold regenWarning newTag
  split <;> rfl

theorem regenError_with (env : Env) (d : Config) (fc : Bool) (c : Config) (lt : LevelText) :
    regenError env d fc { c with LevelText := lt } =
      { c with LevelText := { lt with
          ERROR := newTag lt.ERROR d.LevelText.ERROR c.ErrorColor d.ErrorColor fc
            (GenerateTag env "ERROR".toList c.ErrorColor c) } } := by
  unfold regenError newTag
  split <;> rfl

theorem regenFatal_with (env : Env) (d : Config) (fc : Bool) (c : Config) (lt : LevelText) :
    regenFatal env d fc { c with LevelText := lt } =
      { c with LevelText := { lt with
          FATAL := newTag lt.FATAL d.LevelText.FATAL c.FatalColor d.FatalColor fc
            (GenerateTag env "FATAL".toList c.FatalColor c) } } := by
  unfold regenFatal newTag
  split <;> rfl

theorem regenPanic_with (env : Env) (d : Config) (fc : Bool) (c : Config) (lt : LevelText) :
    regenPanic env d fc { c with LevelText := lt } =
      { c with LevelText := { lt with
          PANIC := newTag lt.PANIC d.LevelText.PANIC c.PanicColor d.PanicColor fc
            (GenerateTag env "PANIC".toList c.PanicColor c) } } := by
  unfold regenPanic newTag
  split <;> rfl

/-- The state after `ApplyConfig`, field by field. -/
theorem ApplyConfig_eq (env : Env) (l : Logger) (cfg : Config) :
    ApplyConfig env l cfg =
      { disableColors cfg with
        LevelText :=
          {
            TRACE := newTag (disableColors cfg).LevelText.TRACE (NewConfig env).LevelText.TRACE
              (disableColors cfg).TraceColor (NewConfig env).TraceColor
              (formattingChanged (disableColors cfg) (NewConfig env))
              (GenerateTag env "TRACE".toList (disableColors cfg).TraceColor (disableColors cfg))
            DEBUG := newTag (disableColors cfg).LevelText.DEBUG (NewConfig env).LevelText.DEBUG
              (disableColors cfg).DebugColor (NewConfig env).DebugColor
              (formattingChanged (disableColors cfg) (NewConfig env))
              (GenerateTag env "DEBUG".toList (disableColors cfg).DebugColor (disableColors cfg))
            INFO := newTag (disableColors cfg).LevelText.INFO (NewConfig env).LevelText.INFO
              (disableColors cfg).InfoColor (NewConfig env).InfoColor
              (formattingChanged (disableColors cfg) (NewConfig env))
              (GenerateTag env "INFO".toList (disableColors cfg).InfoColor (disableColors cfg))
            WARNING := newTag (disableColors cfg).LevelText.WARNING (NewConfig env).LevelText.WARNING
              (disableColors cfg).WarningColor (NewConfig env).WarningColor
              (formattingChanged (disableColors cfg) (NewConfig env))
              (GenerateTag env "WARNING".toList (disableColors cfg).WarningColor (disableColors cfg))
            ERROR := newTag (disableColors cfg).LevelText.ERROR (NewConfig env).LevelText.ERROR
              (disableColors cfg).ErrorColor (NewConfig env).ErrorColor
              (formattingChanged (disableColors cfg) (NewConfig env))
              (GenerateTag env "ERROR".toList (disableColors cfg).ErrorColor (disableColors cfg))
            FATAL := newTag (disableColors cfg).LevelText.FATAL (NewConfig env).LevelText.FATAL
              (disableColors cfg).FatalColor (NewConfig env).FatalColor
              (formattingChanged (disableColors cfg) (NewConfig env))
              (GenerateTag env "FATAL".toList (disableColors cfg).FatalColor (disableColors cfg))
            PANIC := newTag (disableColors cfg).LevelText.PANIC (NewConfig env).LevelText.PANIC
              (disableColors cfg).PanicColor (NewConfig env).PanicColor
              (formattingChanged (disableColors cfg) (NewConfig env))
              (GenerateTag env "PANIC".toList (disableColors cfg).PanicColor (disableColors cfg))
          }
        DebugWriter := getDebugWriter env (disableColors cfg)
        InfoWriter := getInfoWriter env (disableColors cfg)
        ErrorWriter := getErrorWriter env (disableColors cfg) } := by
  unfold ApplyConfig
  generalize disableColors cfg = c
  generalize NewConfig env = d
  have h := regenTrace_with env d (formattingChanged c d) c c.LevelText
  have e : ({ c with LevelText := c.LevelText } : Config) = c := rfl
  rw [e] at h
  simp only []
  rw [h, regenDebug_with, regenInfo_with, regenWarning_with, regenError_with, regenFatal_with,
    regenPanic_with]
  rfl

theorem ApplyConfig_reconciled (env : Env) (l : Logger) (cfg : Config) :
    ApplyConfig env l cfg = reconciled env (disableColors cfg) (NewConfig env) :=
  ApplyConfig_eq env l cfg

theorem reconciled_tag (env : Env) (c d : Config) (sev : Severity) :
    sev.tag (reconciled env c d).LevelText =
      newTag (sev.tag c.LevelText) (sev.tag d.LevelText) (sev.color c) (sev.color d)
        (formattingChanged c d) (GenerateTag env sev.label (sev.color c) c) := by
  cases sev <;> rfl

theorem disableColors_LevelText (cfg : Config) : (disableColors cfg).LevelText = cfg.LevelText := by
  unfold disableColors
  split <;> rfl

/-- The tag of a severity after `ApplyConfig`. -/
theorem ApplyConfig_tag (env : Env) (l : Logger) (cfg : Config) (sev : Severity) :
    sev.tag (ApplyConfig env l cfg).LevelText =
      newTag (sev.tag cfg.LevelText) (sev.tag (NewConfig env).LevelText)
        (sev.color (disableColors cfg)) (sev.color (NewConfig env))
        (formattingChanged (disableColors cfg) (NewConfig env))
        (GenerateTag env sev.label (sev.color (disableColors cfg)) (disableColors cfg)) := by
  rw [ApplyConfig_reconciled, reconciled_tag, disableColors_LevelText]

theorem NewConfig_DisableColors (env : Env) : (NewConfig env).DisableColors = false := rfl

theorem NewConfig_LevelTextInnerFormat (env : Env) :
    (NewConfig env).LevelTextInnerFormat = "%7s".toList := rfl

theorem NewConfig_LevelTextOuterFormat (env : Env) :
    (NewConfig env).LevelTextOuterFormat = "%s ".toList := rfl

theorem NewConfig_LevelTextPadding (env : Env) : (NewConfig env).LevelTextPadding = 10 := rfl

theorem NewConfig_LevelTextLeftJustify (env : Env) :
    (NewConfig env).LevelTextLeftJustify = false := rfl

theorem NewConfig_ResetColor (env : Env) : (NewConfig env).ResetColor = ColorReset := rfl

theorem NewConfig_TraceColor (env : Env) : (NewConfig env).TraceColor = ColorWhite := rfl

theorem NewConfig_DebugColor (env : Env) : (NewConfig env).DebugColor = ColorGreen := rfl

theorem NewConfig_InfoColor (env : Env) : (NewConfig env).InfoColor = ColorCyan := rfl

theorem NewConfig_WarningColor (env : Env) : (NewConfig env).WarningColor = ColorYellow := rfl

theorem NewConfig_ErrorColor (env : Env) : (NewConfig env).ErrorColor = ColorMagenta := rfl

theorem NewConfig_FatalColor (env : Env) : (NewConfig env).FatalColor = ColorRed := rfl

theorem NewConfig_PanicColor (env : Env) : (NewConfig env).PanicColor = ColorRed := rfl


theorem newTag_idem (tag defTag color defColor : GoString) (changed : Bool) (generated : GoString) :
    newTag (newTag tag defTag color defColor changed generated) defTag color defColor changed
        generated =
      newTag tag defTag color defColor changed generated := by
  unfold newTag
  by_cases h : tag = defTag ∧ (color ≠ defColor ∨ changed = true)
  · simp only [h, and_self, if_true]
    split <;> rfl
  · simp only [h, if_false]

theorem disableColors_fixed (cfg : Config)
    (h : cfg.DisableColors = true →
      cfg.TraceColor = [] ∧ cfg.DebugColor = [] ∧ cfg.InfoColor = [] ∧ cfg.WarningColor = [] ∧
        cfg.ErrorColor = [] ∧ cfg.FatalColor = [] ∧ cfg.PanicColor = [] ∧ cfg.ResetColor = []) :
    disableColors cfg = cfg := by
  unfold disableColors
  split
  · rename_i hd
    obtain ⟨h1, h2, h3, h4, h5, h6, h7, h8⟩ := h hd
    cases cfg
    simp only at h1 h2 h3 h4 h5 h6 h7 h8
    subst h1 h2 h3 h4 h5 h6 h7 h8
    rfl
  · rfl

theorem disableColors_colors (cfg : Config) (h : (disableColors cfg).DisableColors = true) :
    (disableColors cfg).TraceColor = [] ∧ (disableColors cfg).DebugColor = [] ∧
      (disableColors cfg).InfoColor = [] ∧ (disableColors cfg).WarningColor = [] ∧
      (disableColors cfg).ErrorColor = [] ∧ (disableColors cfg).FatalColor = [] ∧
      (disableColors cfg).PanicColor = [] ∧ (disableColors cfg).ResetColor = [] := by
  unfold disableColors at h ⊢
  split
  · exact ⟨rfl, rfl, rfl, rfl, rfl, rfl, rfl, rfl⟩
  · rename_i hd
    rw [if_neg hd] at h
    exact absurd h hd

theorem disableColors_idem (cfg : Config) : disableColors (disableColors cfg) = disableColors cfg :=
  disableColors_fixed _ (disableColors_colors cfg)

/-- A second `ApplyConfig`, given the state the first one left, changes nothing. -/
theorem ApplyConfig_fixed (env : Env) (l l' : Logger) (cfg : Config) :
    ApplyConfig env l' (ApplyConfig env l cfg) = ApplyConfig env l cfg := by
  have hdc : disableColors (ApplyConfig env l cfg) = ApplyConfig env l cfg := by
    apply disableColors_fixed
    rw [ApplyConfig_eq]
    exact disableColors_colors cfg
  rw [ApplyConfig_eq env l' (ApplyConfig env l cfg), hdc]
  rw [ApplyConfig_eq env l cfg]
  generalize disableColors cfg = c
  generalize NewConfig env = d
  simp only [GenerateTag, formattingChanged, getDebugWriter, getInfoWriter, getErrorWriter,
    newTag_idem]

theorem disableColors_formats (cfg : Config) :
    (disableColors cfg).LevelTextInnerFormat = cfg.LevelTextInnerFormat ∧
      (disableColors cfg).LevelTextOuterFormat = cfg.LevelTextOuterFormat ∧
      (disableColors cfg).LevelTextLeftJustify = cfg.LevelTextLeftJustify ∧
      (disableColors cfg).LevelTextPadding = cfg.LevelTextPadding := by
  unfold disableColors
  split <;> exact ⟨rfl, rfl, rfl, rfl⟩

theorem disableColors_of_false (cfg : Config) (h : cfg.DisableColors = false) :
    disableColors cfg = cfg := by
  unfold disableColors
  simp [h]

/-- The flag `formattingChanged` says that one of the four format fields left its default. -/
theorem formattingChanged_iff (cfg d : Config) :
    formattingChanged cfg d = true ↔
      (cfg.LevelTextInnerFormat ≠ d.LevelTextInnerFormat ∨
        cfg.LevelTextOuterFormat ≠ d.LevelTextOuterFormat ∨
        cfg.LevelTextLeftJustify ≠ d.LevelTextLeftJustify ∨
        cfg.LevelTextPadding ≠ d.LevelTextPadding) := by
  unfold formattingChanged
  simp only [Bool.or_eq_true, bne_iff_ne, ne_eq, or_assoc]

/-- The regeneration condition, with the flag spelled out on the four format fields. -/
theorem newTag_rule (tag defTag color defColor generated : GoString) (cfg d : Config) :
    newTag tag defTag color defColor (formattingChanged (disableColors cfg) d) generated =
      if tag = defTag ∧
          (color ≠ defColor ∨
            cfg.LevelTextInnerFormat ≠ d.LevelTextInnerFormat ∨
            cfg.LevelTextOuterFormat ≠ d.LevelTextOuterFormat ∨
            cfg.LevelTextLeftJustify ≠ d.LevelTextLeftJustify ∨
            cfg.LevelTextPadding ≠ d.LevelTextPadding) then generated
      else tag := by
  obtain ⟨h1, h2, h3, h4⟩ := disableColors_formats cfg
  unfold newTag
  simp only [formattingChanged_iff, h1, h2, h3, h4]

/-- A configuration that differs from the defaults in `InfoColor` alone gets a new INFO
tag and keeps the six other tags. -/
theorem reconciled_InfoColor (env : Env) (d : Config) (color : GoString)
    (hi : color ≠ d.InfoColor) :
    (reconciled env { d with InfoColor := color } d).LevelText =
      { d.LevelText with
        INFO := GenerateTag env "INFO".toList color { d with InfoColor := color } } := by
  have hfc : formattingChanged { d with InfoColor := color } d = false := by
    unfold formattingChanged
    simp
  unfold reconciled
  simp [newTag, hfc, hi]

/-- C4. If the tag that cfg stores for a severity differs from the default tag of that
severity, then after ApplyConfig(cfg), and after NewLogger(cfg), the tag of that
severity is exactly the one of cfg, whatever the colours, formats, padding and
DisableColors of cfg. -/
theorem custom_tag_preserved (env : Env) (l : Logger) (cfg : Config) (sev : Severity)
    (h : sev.tag cfg.LevelText ≠ sev.tag (NewConfig env).LevelText) :
    sev.tag (ApplyConfig env l cfg).LevelText = sev.tag cfg.LevelText ∧
      sev.tag (NewLogger env cfg).LevelText = sev.tag cfg.LevelText := by
  have key : ∀ l0 : Logger, sev.tag (ApplyConfig env l0 cfg).LevelText = sev.tag cfg.LevelText := by
    intro l0
    rw [ApplyConfig_tag]
    unfold newTag
    rw [if_neg]
    intro hc
    exact h hc.1
  exact ⟨key l, key cfg⟩

theorem custom_tag_preserved_witness :
    Severity.INFO.tag customConfig.LevelText ≠ Severity.INFO.tag (NewConfig Env.sample).LevelText ∧
      Severity.INFO.tag (ApplyConfig Env.sample (DefaultLogger Env.sample) customConfig).LevelText =
        Severity.INFO.tag customConfig.LevelText ∧
      Severity.INFO.tag (NewLogger Env.sample customConfig).LevelText =
        Severity.INFO.tag customConfig.LevelText :=
  ⟨by decide!,
    custom_tag_preserved Env.sample (DefaultLogger Env.sample) customConfig Severity.INFO
      (by decide!)⟩

/-- C5. For each severity independently, the tag stored after ApplyConfig(cfg) is
GenerateTag(LABEL, colour, cfg1) when the tag of cfg equals the default tag of the
severity and the colour differs from the default colour or one of LevelTextInnerFormat,
LevelTextOuterFormat, LevelTextLeftJustify, LevelTextPadding differs from its default,
and is the tag of cfg otherwise; colour and cfg1 are the values of cfg after the
DisableColors step.  In particular a default configuration whose InfoColor alone was
changed gets an INFO tag generated with the new colour and keeps the six other tags. -/
theorem regenerate_rule (env : Env) (l : Logger) :
    (∀ (cfg : Config) (sev : Severity),
      sev.tag (ApplyConfig env l cfg).LevelText =
        if sev.tag cfg.LevelText = sev.tag (NewConfig env).LevelText ∧
            (sev.color (disableColors cfg) ≠ sev.color (NewConfig env) ∨
              cfg.LevelTextInnerFormat ≠ (NewConfig env).LevelTextInnerFormat ∨
              cfg.LevelTextOuterFormat ≠ (NewConfig env).LevelTextOuterFormat ∨
              cfg.LevelTextLeftJustify ≠ (NewConfig env).LevelTextLeftJustify ∨
              cfg.LevelTextPadding ≠ (NewConfig env).LevelTextPadding) then
          GenerateTag env sev.label (sev.color (disableColors cfg)) (disableColors cfg)
        else sev.tag cfg.LevelText) ∧
      (∀ color : GoString, color ≠ ColorCyan →
        (ApplyConfig env l { NewConfig env with InfoColor := color }).LevelText =
          { (NewConfig env).LevelText with
            INFO := GenerateTag env "INFO".toList color { NewConfig env with InfoColor := color } }) := by
  constructor
  · intro cfg sev
    rw [ApplyConfig_tag, newTag_rule]
  · intro color hc
    rw [ApplyConfig_reconciled,
      disableColors_of_false { NewConfig env with InfoColor := color } (NewConfig_DisableColors env)]
    apply reconciled_InfoColor
    rw [NewConfig_InfoColor]
    exact hc

/-- C8. A second ApplyConfig leaves the seven tags and the three sinks as the first
one left them, whether it is given cfg again or the configuration that the logger
holds after the first call, as NewLogger does. -/
theorem ApplyConfig_idempotent (env : Env) (l : Logger) (cfg : Config) :
    ((ApplyConfig env (ApplyConfig env l cfg) cfg).LevelText = (ApplyConfig env l cfg).LevelText ∧
        (ApplyConfig env (ApplyConfig env l cfg) cfg).DebugWriter = (ApplyConfig env l cfg).DebugWriter ∧
        (ApplyConfig env (ApplyConfig env l cfg) cfg).InfoWriter = (ApplyConfig env l cfg).InfoWriter ∧
        (ApplyConfig env (ApplyConfig env l cfg) cfg).ErrorWriter = (ApplyConfig env l cfg).ErrorWriter) ∧
      ((ApplyConfig env (ApplyConfig env l cfg) (ApplyConfig env l cfg)).LevelText =
          (ApplyConfig env l cfg).LevelText ∧
        (ApplyConfig env (ApplyConfig env l cfg) (ApplyConfig env l cfg)).DebugWriter =
          (ApplyConfig env l cfg).DebugWriter ∧
        (ApplyConfig env (ApplyConfig env l cfg) (ApplyConfig env l cfg)).InfoWriter =
          (ApplyConfig env l cfg).InfoWriter ∧
        (ApplyConfig env (ApplyConfig env l cfg) (ApplyConfig env l cfg)).ErrorWriter =
          (ApplyConfig env l cfg).ErrorWriter) ∧
      ((NewLogger env (NewLogger env cfg)).LevelText = (NewLogger env cfg).LevelText ∧
        (NewLogger env (NewLogger env cfg)).DebugWriter = (NewLogger env cfg).DebugWriter ∧
        (NewLogger env (NewLogger env cfg)).InfoWriter = (NewLogger env cfg).InfoWriter ∧
        (NewLogger env (NewLogger env cfg)).ErrorWriter = (NewLogger env cfg).ErrorWriter) := by
  have hagain : ApplyConfig env (ApplyConfig env l cfg) cfg = ApplyConfig env l cfg := by
    rw [ApplyConfig_eq, ApplyConfig_eq]
  have hown := ApplyConfig_fixed env l (ApplyConfig env l cfg) cfg
  have hnew : NewLogger env (NewLogger env cfg) = NewLogger env cfg := by
    unfold NewLogger
    exact ApplyConfig_fixed env cfg _ cfg
  rw [hagain, hown, hnew]
  exact ⟨⟨rfl, rfl, rfl, rfl⟩, ⟨rfl, rfl, rfl, rfl⟩, ⟨rfl, rfl, rfl, rfl⟩⟩

/-! ## The writer resolver -/

theorem getWriter_off (env : Env) (logToFile : Bool) (fileOut : GoString) (writer : Writer)
    (h : logToFile = false ∨ fileOut = []) : getWriter env logToFile fileOut writer = writer := by
  unfold getWriter
  rcases h with h | h <;> simp [h]

theorem orDiscard_present (w : Writer) :
    (if w = Writer.null then Writer.discard else w) ≠ Writer.null := by
  split
  · decide
  · assumption

theorem getDebugWriter_present (env : Env) (cfg : Config) : getDebugWriter env cfg ≠ Writer.null := by
  unfold getDebugWriter
  exact orDiscard_present _

theorem getInfoWriter_present (env : Env) (cfg : Config) : getInfoWriter env cfg ≠ Writer.null := by
  unfold getInfoWriter
  exact orDiscard_present _

theorem getErrorWriter_present (env : Env) (cfg : Config) : getErrorWriter env cfg ≠ Writer.null := by
  unfold getErrorWriter
  exact orDiscard_present _

theorem getDebugWriter_disableColors (env : Env) (cfg : Config) :
    getDebugWriter env (disableColors cfg) = getDebugWriter env cfg := by
  unfold disableColors
  split <;> rfl

theorem getInfoWriter_disableColors (env : Env) (cfg : Config) :
    getInfoWriter env (disableColors cfg) = getInfoWriter env cfg := by
  unfold disableColors
  split <;> rfl

theorem getErrorWriter_disableColors (env : Env) (cfg : Config) :
    getErrorWriter env (disableColors cfg) = getErrorWriter env cfg := by
  unfold disableColors
  split <;> rfl

theorem reconciled_writers (env : Env) (c d : Config) :
    (reconciled env c d).DebugWriter = getDebugWriter env c ∧
      (reconciled env c d).InfoWriter = getInfoWriter env c ∧
      (reconciled env c d).ErrorWriter = getErrorWriter env c :=
  ⟨rfl, rfl, rfl⟩

/-- The three sinks after `ApplyConfig` are the ones the resolver gives for cfg. -/
theorem ApplyConfig_writers (env : Env) (l : Logger) (cfg : Config) :
    (ApplyConfig env l cfg).DebugWriter = getDebugWriter env cfg ∧
      (ApplyConfig env l cfg).InfoWriter = getInfoWriter env cfg ∧
      (ApplyConfig env l cfg).ErrorWriter = getErrorWriter env cfg := by
  obtain ⟨h1, h2, h3⟩ := reconciled_writers env (disableColors cfg) (NewConfig env)
  rw [ApplyConfig_reconciled, h1, h2, h3, getDebugWriter_disableColors,
    getInfoWriter_disableColors, getErrorWriter_disableColors]
  exact ⟨rfl, rfl, rfl⟩

theorem NewConfig_writers (env : Env) :
    (NewConfig env).DebugWriter = Writer.stdout ∧ (NewConfig env).InfoWriter = Writer.stdout ∧
      (NewConfig env).ErrorWriter = Writer.stderr :=
  ⟨rfl, rfl, rfl⟩

theorem getDebugWriter_console (env : Env) (cfg : Config)
    (h : cfg.LogToFile = false ∨ cfg.DebugFile = []) :
    getDebugWriter env cfg = if cfg.LogToOutput = true then Writer.stdout else Writer.discard := by
  unfold getDebugWriter
  simp only [getWriter_off env _ _ _ h]
  cases cfg.LogToOutput <;> simp

theorem getInfoWriter_console (env : Env) (cfg : Config)
    (h : cfg.LogToFile = false ∨ cfg.InfoFile = []) :
    getInfoWriter env cfg = if cfg.LogToOutput = true then Writer.stdout else Writer.discard := by
  unfold getInfoWriter
  simp only [getWriter_off env _ _ _ h]
  cases cfg.LogToOutput <;> simp

theorem getErrorWriter_console (env : Env) (cfg : Config)
    (h : cfg.LogToFile = false ∨ cfg.ErrorFile = []) :
    getErrorWriter env cfg = if cfg.LogToOutput = true then Writer.stderr else Writer.discard := by
  unfold getErrorWriter
  simp only [getWriter_off env _ _ _ h]
  cases cfg.LogToOutput <;> simp

/-- C15. After NewConfig, NewLogger(cfg) and ApplyConfig(cfg) none of DebugWriter,
InfoWriter and ErrorWriter is the nil writer.  When file logging is off or the path of
the band is empty, the sink of the band is the discard sink if LogToOutput is false,
and standard out for the debug and info bands, standard error for the error band, if
LogToOutput is true. -/
theorem sinks_never_nil (env : Env) (l : Logger) (cfg : Config) :
    ((NewConfig env).DebugWriter ≠ Writer.null ∧ (NewConfig env).InfoWriter ≠ Writer.null ∧
        (NewConfig env).ErrorWriter ≠ Writer.null) ∧
      ((NewLogger env cfg).DebugWriter ≠ Writer.null ∧ (NewLogger env cfg).InfoWriter ≠ Writer.null ∧
        (NewLogger env cfg).ErrorWriter ≠ Writer.null) ∧
      ((ApplyConfig env l cfg).DebugWriter ≠ Writer.null ∧
        (ApplyConfig env l cfg).InfoWriter ≠ Writer.null ∧
        (ApplyConfig env l cfg).ErrorWriter ≠ Writer.null) ∧
      (cfg.LogToFile = false ∨ cfg.DebugFile = [] →
        (ApplyConfig env l cfg).DebugWriter =
            (if cfg.LogToOutput = true then Writer.stdout else Writer.discard) ∧
          (NewLogger env cfg).DebugWriter =
            (if cfg.LogToOutput = true then Writer.stdout else Writer.discard)) ∧
      (cfg.LogToFile = false ∨ cfg.InfoFile = [] →
        (ApplyConfig env l cfg).InfoWriter =
            (if cfg.LogToOutput = true then Writer.stdout else Writer.discard) ∧
          (NewLogger env cfg).InfoWriter =
            (if cfg.LogToOutput = true then Writer.stdout else Writer.discard)) ∧
      (cfg.LogToFile = false ∨ cfg.ErrorFile = [] →
        (ApplyConfig env l cfg).ErrorWriter =
            (if cfg.LogToOutput = true then Writer.stderr else Writer.discard) ∧
          (NewLogger env cfg).ErrorWriter =
            (if cfg.LogToOutput = true then Writer.stderr else Writer.discard)) := by
  obtain ⟨n1, n2, n3⟩ := NewConfig_writers env
  obtain ⟨a1, a2, a3⟩ := ApplyConfig_writers env l cfg
  obtain ⟨b1, b2, b3⟩ := ApplyConfig_writers env cfg cfg
  unfold NewLogger
  simp only []
  rw [n1, n2, n3, a1, a2, a3, b1, b2, b3]
  refine ⟨⟨by decide, by decide, by decide⟩,
    ⟨getDebugWriter_present env cfg, getInfoWriter_present env cfg, getErrorWriter_present env cfg⟩,
    ⟨getDebugWriter_present env cfg, getInfoWriter_present env cfg, getErrorWriter_present env cfg⟩,
    ?_, ?_, ?_⟩
  · intro h
    exact ⟨getDebugWriter_console env cfg h, getDebugWriter_console env cfg h⟩
  · intro h
    exact ⟨getInfoWriter_console env cfg h, getInfoWriter_console env cfg h⟩
  · intro h
    exact ⟨getErrorWriter_console env cfg h, getErrorWriter_console env cfg h⟩

/-! ## The emitter: formatted variants, ends of Fatal and Panic -/

theorem doLogf_eq_doLog (env : Env) (l : Logger) (writer : Writer) (level : Int)
    (levelText format : GoString) (args : List Value) :
    doLogf env l writer level levelText format args =
      doLog env l writer level levelText (Sprintf env format args) := by
  unfold doLogf
  by_cases h : level ≥ l.LogLevel
  · rw [if_pos h]
  · rw [if_neg h]
    unfold doLog
    rw [if_neg h]

/-- C18. The formatted path makes one filter decision: doLogf(writer, level, tag,
format, args) is the run of doLog(writer, level, tag, Sprintf(format, args)), it writes
nothing when level < LogLevel, and each formatted method that returns to its caller is
the plain method on the formatted message. -/
theorem doLogf_single_filter (env : Env) (l : Logger) (writer : Writer) (level : Int)
    (levelText format : GoString) (args : List Value) :
    doLogf env l writer level levelText format args =
        doLog env l writer level levelText (Sprintf env format args) ∧
      (level < l.LogLevel → (doLogf env l writer level levelText format args).writes = []) ∧
      Tracef env l format args = Trace env l (Sprintf env format args) ∧
      Debugf env l format args = Debug env l (Sprintf env format args) ∧
      Infof env l format args = Info env l (Sprintf env format args) ∧
      Warningf env l format args = Warning env l (Sprintf env format args) ∧
      Warnf env l format args = Warn env l (Sprintf env format args) ∧
      Errorf env l format args = Error env l (Sprintf env format args) := by
  refine ⟨doLogf_eq_doLog _ _ _ _ _ _ _, ?_, doLogf_eq_doLog _ _ _ _ _ _ _,
    doLogf_eq_doLog _ _ _ _ _ _ _, doLogf_eq_doLog _ _ _ _ _ _ _, doLogf_eq_doLog _ _ _ _ _ _ _,
    doLogf_eq_doLog _ _ _ _ _ _ _, doLogf_eq_doLog _ _ _ _ _ _ _⟩
  intro h
  rw [doLogf_writes, if_neg]
  intro hc
  omega

theorem doLog_outcome (env : Env) (l : Logger) (writer : Writer) (level : Int)
    (levelText msg : GoString) (hw : writer ≠ Writer.null) :
    (doLog env l writer level levelText msg).outcome = Outcome.returned := by
  unfold doLog
  by_cases h : level ≥ l.LogLevel <;> simp [h, hw]

theorem andThen_outcome (r : Run) (next : Outcome) (h : r.outcome = Outcome.returned) :
    (r.andThen next).outcome = next := by
  unfold Run.andThen
  rw [h]

/-- C17. On a logger whose ErrorWriter is not nil, Fatal and Fatalf end with exit code
1 and Panic and Panicf end by panicking, with msg and with the formatted string, in
each case after the write of the call: the one line to ErrorWriter when the level
passes the threshold, and no write otherwise. -/
theorem fatal_panic_end (env : Env) (l : Logger) (msg format : GoString) (args : List Value)
    (hw : l.ErrorWriter ≠ Writer.null) :
    (Fatal env l msg =
        ⟨if FatalLevel ≥ l.LogLevel then
            [(l.ErrorWriter,
              generateTimeString env l ++ l.LogPrefix ++ l.LevelText.FATAL ++ msg ++ l.LogSuffix)]
          else [], Outcome.exited 1⟩) ∧
      (Fatalf env l format args =
        ⟨if FatalLevel ≥ l.LogLevel then
            [(l.ErrorWriter,
              generateTimeString env l ++ l.LogPrefix ++ l.LevelText.FATAL ++
                Sprintf env format args ++ l.LogSuffix)]
          else [], Outcome.exited 1⟩) ∧
      (Panic env l msg =
        ⟨if PanicLevel ≥ l.LogLevel then
            [(l.ErrorWriter,
              generateTimeString env l ++ l.LogPrefix ++ l.LevelText.PANIC ++ msg ++ l.LogSuffix)]
          else [], Outcome.panicked msg⟩) ∧
      (Panicf env l format args =
        ⟨if PanicLevel ≥ l.LogLevel then
            [(l.ErrorWriter,
              generateTimeString env l ++ l.LogPrefix ++ l.LevelText.PANIC ++
                Sprintf env format args ++ l.LogSuffix)]
          else [], Outcome.panicked (Sprintf env format args)⟩) := by
  have key : ∀ (level : Int) (tag m : GoString) (next : Outcome),
      (doLog env l l.ErrorWriter level tag m).andThen next =
        ⟨if level ≥ l.LogLevel then
            [(l.ErrorWriter, generateTimeString env l ++ l.LogPrefix ++ tag ++ m ++ l.LogSuffix)]
          else [], next⟩ := by
    intro level tag m next
    unfold Run.andThen doLog
    by_cases h : level ≥ l.LogLevel
    · simp [h, hw]
    · simp [h]
  unfold Fatal Fatalf Panic Panicf
  rw [doLogf_eq_doLog, doLogf_eq_doLog]
  exact ⟨key _ _ _ _, key _ _ _ _, key _ _ _ _, key _ _ _ _⟩

theorem fatal_panic_end_witness :
    (DefaultLogger Env.sample).ErrorWriter ≠ Writer.null ∧
      (Fatal Env.sample (DefaultLogger Env.sample) "x".toList).outcome = Outcome.exited 1 ∧
      (Panicf Env.sample (DefaultLogger Env.sample) "%s".toList [Value.str "x".toList]).outcome =
        Outcome.panicked "x".toList :=
  ⟨by decide!,
    by
      rw [(fatal_panic_end Env.sample (DefaultLogger Env.sample) "x".toList "%s".toList
        [Value.str "x".toList] (by decide!)).1]
    ,
    by
      rw [(fatal_panic_end Env.sample (DefaultLogger Env.sample) "x".toList "%s".toList
        [Value.str "x".toList] (by decide!)).2.2.2]
      decide⟩

/-- The zero-value logger has a nil ErrorWriter: `Fatal` faults on the call of `Write`
and never reaches `os.Exit(1)`, and `Panic` faults before its own `panic(msg)`. -/
theorem fatal_on_nil_writer :
    Fatal Env.sample Config.zero "x".toList = ⟨[], Outcome.nilWriter⟩ ∧
      (Fatal Env.sample Config.zero "x".toList).outcome ≠ Outcome.exited 1 ∧
      (Panic Env.sample Config.zero "x".toList).outcome ≠ Outcome.panicked "x".toList := by
  decide!

/-! ## The reconciler: what survives -/

theorem disableColors_frame (cfg : Config) :
    (disableColors cfg).LogLevel = cfg.LogLevel ∧ (disableColors cfg).LogPrefix = cfg.LogPrefix ∧
      (disableColors cfg).LogSuffix = cfg.LogSuffix ∧
      (disableColors cfg).TimeColor = cfg.TimeColor ∧
      (disableColors cfg).PrintTime = cfg.PrintTime ∧
      (disableColors cfg).TimePattern = cfg.TimePattern := by
  unfold disableColors
  split <;> exact ⟨rfl, rfl, rfl, rfl, rfl, rfl⟩

theorem reconciled_frame (env : Env) (c d : Config) :
    (reconciled env c d).LogLevel = c.LogLevel ∧ (reconciled env c d).LogPrefix = c.LogPrefix ∧
      (reconciled env c d).LogSuffix = c.LogSuffix ∧
      (reconciled env c d).TimeColor = c.TimeColor ∧
      (reconciled env c d).PrintTime = c.PrintTime ∧
      (reconciled env c d).TimePattern = c.TimePattern :=
  ⟨rfl, rfl, rfl, rfl, rfl, rfl⟩

/-- C19. The state after ApplyConfig(cfg) is a function of cfg alone: two loggers in
arbitrary states hold the same state after the same cfg was applied, so nothing of the
prior state survives; threshold, prefix, suffix and the time settings are those of cfg. -/
theorem ApplyConfig_overwrites (env : Env) (l1 l2 : Logger) (cfg : Config) :
    ApplyConfig env l1 cfg = ApplyConfig env l2 cfg ∧
      (ApplyConfig env l1 cfg).LogLevel = cfg.LogLevel ∧
      (ApplyConfig env l1 cfg).LogPrefix = cfg.LogPrefix ∧
      (ApplyConfig env l1 cfg).LogSuffix = cfg.LogSuffix ∧
      (ApplyConfig env l1 cfg).TimeColor = cfg.TimeColor ∧
      (ApplyConfig env l1 cfg).PrintTime = cfg.PrintTime ∧
      (ApplyConfig env l1 cfg).TimePattern = cfg.TimePattern := by
  obtain ⟨r1, r2, r3, r4, r5, r6⟩ := reconciled_frame env (disableColors cfg) (NewConfig env)
  obtain ⟨d1, d2, d3, d4, d5, d6⟩ := disableColors_frame cfg
  rw [ApplyConfig_reconciled env l1 cfg, ApplyConfig_reconciled env l2 cfg, r1, r2, r3, r4, r5, r6,
    d1, d2, d3, d4, d5, d6]
  exact ⟨rfl, rfl, rfl, rfl, rfl, rfl, rfl⟩

theorem ApplyConfig_tag_kept (env : Env) (l : Logger) (cfg : Config) (sev : Severity)
    (h : sev.tag cfg.LevelText ≠ sev.tag (NewConfig env).LevelText) :
    sev.tag (ApplyConfig env l cfg).LevelText = sev.tag cfg.LevelText := by
  rw [ApplyConfig_tag]
  unfold newTag
  rw [if_neg]
  intro hc
  exact h hc.1

/-- C16. A tag of severity A that equals the default tag of another severity B, and not
the default tag of A itself, is kept by ApplyConfig: the comparison is with the default
of the same severity only.  It is a tag equal to its own default that is generated
anew, as soon as the colour of the severity differs from the default colour. -/
theorem own_default_only (env : Env) (l : Logger) :
    (∀ (cfg : Config) (A B : Severity), A ≠ B →
        A.tag cfg.LevelText = B.tag (NewConfig env).LevelText →
        A.tag cfg.LevelText ≠ A.tag (NewConfig env).LevelText →
        A.tag (ApplyConfig env l cfg).LevelText = A.tag cfg.LevelText) ∧
      (∀ (cfg : Config) (A : Severity),
        A.tag cfg.LevelText = A.tag (NewConfig env).LevelText →
        A.color (disableColors cfg) ≠ A.color (NewConfig env) →
        A.tag (ApplyConfig env l cfg).LevelText =
          GenerateTag env A.label (A.color (disableColors cfg)) (disableColors cfg)) := by
  constructor
  · intro cfg A B _ _ h
    exact ApplyConfig_tag_kept env l cfg A h
  · intro cfg A h1 h2
    rw [ApplyConfig_tag]
    unfold newTag
    rw [if_pos ⟨h1, Or.inl h2⟩]

/-- No configuration and no two severities are as the limitation describes: a tag that
equals the default tag of another severity, and not its own default, is never replaced.
The INFO tag set to the default WARNING tag stays, a new InfoColor notwithstanding; the
default INFO tag under a new InfoColor does not. -/
theorem no_overwrite_by_other_default :
    (¬ ∃ (env : Env) (l : Logger) (cfg : Config) (A B : Severity),
        A ≠ B ∧ A.tag cfg.LevelText = B.tag (NewConfig env).LevelText ∧
          A.tag cfg.LevelText ≠ A.tag (NewConfig env).LevelText ∧
          A.tag (ApplyConfig env l cfg).LevelText ≠ A.tag cfg.LevelText) ∧
      Severity.INFO.tag borrowedTagConfig.LevelText =
        Severity.WARNING.tag (NewConfig Env.sample).LevelText ∧
      Severity.INFO.tag (ApplyConfig Env.sample borrowedTagConfig borrowedTagConfig).LevelText =
        Severity.INFO.tag borrowedTagConfig.LevelText ∧
      Severity.INFO.tag (ApplyConfig Env.sample blueConfig blueConfig).LevelText ≠
        Severity.INFO.tag blueConfig.LevelText := by
  refine ⟨?_, by decide!, by decide!, by decide!⟩
  rintro ⟨env, l, cfg, A, B, _, _, h, hne⟩
  exact hne (ApplyConfig_tag_kept env l cfg A h)

/-! ## Tags: evaluation of `GenerateTag` -/

theorem Sprintf_of_some (env : Env) (format : GoString) (a : List Value) (out : GoString)
    (h : doPrintf .text format a = some out) : Sprintf env format a = out := by
  unfold Sprintf
  rw [h]
  rfl

/-- Within the fragment, `GenerateTag` is the same in every environment. -/
theorem tagWith_of_pure (env : Env) (tagText colorSequence innerFormat outerFormat resetColor : GoString)
    (padding : Int) (leftJustify : Bool) (t : GoString)
    (h : tagPure tagText colorSequence innerFormat outerFormat resetColor padding leftJustify = some t) :
    tagWith env tagText colorSequence innerFormat outerFormat resetColor padding leftJustify = t := by
  unfold tagPure at h
  simp only [Option.bind_eq_some] at h
  obtain ⟨inner, h1, bracketed, h2, formattedTag, h3, num, h4, h5⟩ := h
  unfold tagWith
  simp only []
  rw [Sprintf_of_some env _ _ _ h1, Sprintf_of_some env _ _ _ h2, Sprintf_of_some env _ _ _ h3]
  by_cases hl : leftJustify = true
  · simp only [hl, if_true] at h4 ⊢
    rw [Sprintf_of_some env _ _ _ h4, Sprintf_of_some env _ _ _ h5]
  · simp only [hl, if_false] at h4 ⊢
    rw [Sprintf_of_some env _ _ _ h4, Sprintf_of_some env _ _ _ h5]

theorem plainTag_pure (sev : Severity) :
    tagPure sev.label [] "%7s".toList "%s ".toList [] 10 false = some (plainTag sev) := by
  cases sev <;> decide!

theorem plainTag_facts (sev : Severity) :
    len (plainTag sev) = len (removeAnsi (plainTag sev)) ∧ ESC ∉ plainTag sev ∧ CSI ∉ plainTag sev := by
  cases sev <;> decide!

theorem NewLogger_eq (env : Env) (cfg : Config) : NewLogger env cfg = ApplyConfig env cfg cfg := rfl

/-- The tag that colourless defaults get: generated anew, without colour sequences. -/
theorem reconciled_plain (env : Env) (d : Config) (sev : Severity) (hcol : sev.color d ≠ []) :
    sev.tag (reconciled env (disableColors { d with DisableColors := true }) d).LevelText =
      tagWith env sev.label [] d.LevelTextInnerFormat d.LevelTextOuterFormat [] d.LevelTextPadding
        d.LevelTextLeftJustify := by
  have hc : disableColors { d with DisableColors := true } =
      { d with
        DisableColors := true
        TraceColor := []
        DebugColor := []
        InfoColor := []
        WarningColor := []
        ErrorColor := []
        FatalColor := []
        PanicColor := []
        ResetColor := [] } := rfl
  rw [reconciled_tag, hc]
  unfold newTag GenerateTag
  cases sev <;> simp only [Severity.tag, Severity.color, true_and] at hcol ⊢ <;>
    rw [if_pos (Or.inl (Ne.symm hcol))]

theorem default_color_ne (d : Config) (sev : Severity)
    (h1 : d.TraceColor = ColorWhite) (h2 : d.DebugColor = ColorGreen) (h3 : d.InfoColor = ColorCyan)
    (h4 : d.WarningColor = ColorYellow) (h5 : d.ErrorColor = ColorMagenta)
    (h6 : d.FatalColor = ColorRed) (h7 : d.PanicColor = ColorRed) : sev.color d ≠ [] := by
  cases sev <;> simp only [Severity.color, h1, h2, h3, h4, h5, h6, h7] <;> decide

theorem NewConfig_color_ne (env : Env) (sev : Severity) : sev.color (NewConfig env) ≠ [] :=
  default_color_ne (NewConfig env) sev (NewConfig_TraceColor env) (NewConfig_DebugColor env)
    (NewConfig_InfoColor env) (NewConfig_WarningColor env) (NewConfig_ErrorColor env)
    (NewConfig_FatalColor env) (NewConfig_PanicColor env)

/-- The tags of the default configuration with colours disabled, after `ApplyConfig`. -/
theorem ApplyConfig_plain (env : Env) (l : Logger) (sev : Severity) :
    sev.tag (ApplyConfig env l { NewConfig env with DisableColors := true }).LevelText =
      plainTag sev := by
  rw [ApplyConfig_reconciled]
  have h := reconciled_plain env (NewConfig env) sev (NewConfig_color_ne env sev)
  rw [NewConfig_LevelTextInnerFormat, NewConfig_LevelTextOuterFormat, NewConfig_LevelTextPadding,
    NewConfig_LevelTextLeftJustify, tagWith_of_pure env _ _ _ _ _ _ _ _ (plainTag_pure sev)] at h
  exact h

/-- C6. For the default configuration with DisableColors set to true, each of the
seven level tags after ApplyConfig, and after NewLogger, has as many bytes as its
text without ANSI sequences, and contains no escape character. -/
theorem plain_tags_without_ansi (env : Env) (l : Logger) (sev : Severity) :
    (len (sev.tag (ApplyConfig env l { NewConfig env with DisableColors := true }).LevelText) =
        len (removeAnsi
          (sev.tag (ApplyConfig env l { NewConfig env with DisableColors := true }).LevelText)) ∧
      ESC ∉ sev.tag (ApplyConfig env l { NewConfig env with DisableColors := true }).LevelText ∧
      CSI ∉ sev.tag (ApplyConfig env l { NewConfig env with DisableColors := true }).LevelText) ∧
    (len (sev.tag (NewLogger env { NewConfig env with DisableColors := true }).LevelText) =
        len (removeAnsi
          (sev.tag (NewLogger env { NewConfig env with DisableColors := true }).LevelText)) ∧
      ESC ∉ sev.tag (NewLogger env { NewConfig env with DisableColors := true }).LevelText ∧
      CSI ∉ sev.tag (NewLogger env { NewConfig env with DisableColors := true }).LevelText) := by
  rw [NewLogger_eq, ApplyConfig_plain, ApplyConfig_plain]
  exact ⟨plainTag_facts sev, plainTag_facts sev⟩

/-! ## Settings that miss their purpose: DisableColors, PrintLevel, the failed open -/

/-- The colour and the switch of the time stamp pass through `ApplyConfig` unchanged. -/
theorem ApplyConfig_TimeColor (env : Env) (l : Logger) (cfg : Config) :
    (ApplyConfig env l cfg).TimeColor = cfg.TimeColor ∧
      (ApplyConfig env l cfg).PrintTime = cfg.PrintTime := by
  obtain ⟨_, _, _, r4, r5, _⟩ := reconciled_frame env (disableColors cfg) (NewConfig env)
  obtain ⟨_, _, _, d4, d5, _⟩ := disableColors_frame cfg
  rw [ApplyConfig_reconciled, r4, r5, d4, d5]
  exact ⟨rfl, rfl⟩

/-- The logger that `getWriter` builds for its warning writes INFO and WARNING to the
discard sink. -/
theorem bootstrap_InfoWriter (env : Env) : (NewLogger env Config.zero).InfoWriter = Writer.discard := by
  rw [NewLogger_eq, (ApplyConfig_writers env Config.zero Config.zero).2.1,
    getInfoWriter_console env Config.zero (Or.inl rfl)]
  rfl

/-- The writer that `getWriter` returns when the file cannot be opened. -/
theorem getWriter_failed (env : Env) (fileOut : GoString) (writer : Writer) (h1 : fileOut ≠ [])
    (h2 : env.canOpen fileOut = false) :
    getWriter env true fileOut writer =
      if writer ≠ Writer.null then Writer.multi writer Writer.nilFile else Writer.nilFile := by
  unfold getWriter
  simp [h1, h2]

/-- C7. ApplyConfig leaves TimeColor as cfg has it, DisableColors or not.  The code at
the failing input: a logger built from the default configuration with DisableColors =
true has plain level tags, but its time stamp still starts with the escape sequence of
TimeColor, and nothing resets it. -/
theorem time_color_survives :
    (∀ (env : Env) (l : Logger) (cfg : Config),
        (ApplyConfig env l cfg).TimeColor = cfg.TimeColor ∧
          (NewLogger env cfg).TimeColor = cfg.TimeColor) ∧
      (NewLogger Env.sample plainConfig).TimeColor = ColorGray ∧
      (Info Env.sample (NewLogger Env.sample plainConfig) "x".toList).writes =
        [(Writer.stdout, "\x1b[30;1m[Nov 04 2026 @ 12:00:00.000] [   INFO] x\n".toList)] := by
  refine ⟨fun env l cfg => ⟨(ApplyConfig_TimeColor env l cfg).1, ?_⟩, by decide!, by decide!⟩
  rw [NewLogger_eq]
  exact (ApplyConfig_TimeColor env cfg cfg).1

/-- C12. No logging method reads PrintLevel: a call on a logger with PrintLevel = false
is the call on the same logger with PrintLevel = true.  The code at the failing input:
a logger built from the default configuration with PrintLevel = false still prints the
level tag; the line of `Info("x")` is the time string, the INFO tag, the message and
the suffix. -/
theorem print_level_ignored :
    (∀ (env : Env) (l : Logger) (m : Method) (text : GoString) (args : List Value),
        m.call env { l with PrintLevel := false } text args =
          m.call env { l with PrintLevel := true } text args) ∧
      (NewLogger Env.sample noLevelConfig).PrintLevel = false ∧
      (Info Env.sample (NewLogger Env.sample noLevelConfig) "x".toList).writes =
        [(Writer.stdout,
          "\x1b[30;1m[Nov 04 2026 @ 12:00:00.000] \x1b[0m[\x1b[36m   INFO\x1b[0m] x\n".toList)] ∧
      (Info Env.sample (NewLogger Env.sample noLevelConfig) "x".toList).writes =
        (Info Env.sample (DefaultLogger Env.sample) "x".toList).writes := by
  refine ⟨?_, by decide!, by decide!, by decide!⟩
  intro env l m text args
  cases m <;> rfl

/-- C13. Every write of the warning of `getWriter` goes to the discard sink.  The code
at the failing input: the warning of a failed open goes through `NewLogger(Config{})`,
whose info sink is the discard sink and whose WARNING tag is empty, so the one write is
the bare message, to the discard sink. -/
theorem open_warning_discarded :
    (∀ (env : Env) (logToFile : Bool) (fileOut : GoString),
        ∀ w ∈ (getWriterWarning env logToFile fileOut).writes, w.1 = Writer.discard) ∧
      getWriterWarning Env.noFiles true "/nodir/debug.log".toList =
        ⟨[(Writer.discard, "Failed to open log file for writing: /nodir/debug.log".toList)],
          Outcome.returned⟩ ∧
      (NewLogger Env.noFiles Config.zero).InfoWriter = Writer.discard ∧
      (NewLogger Env.noFiles Config.zero).LevelText.WARNING = [] := by
  refine ⟨?_, by decide!, by decide!, by decide!⟩
  intro env logToFile fileOut w hw
  unfold getWriterWarning at hw
  split at hw
  · unfold Warningf at hw
    rw [doLogf_writes, bootstrap_InfoWriter] at hw
    split at hw
    · rw [List.mem_singleton] at hw
      rw [hw]
    · simp at hw
  · simp at hw

/-- C14. With file logging on and a path that cannot be opened, the debug sink is the
console writer combined with the nil file, and the nil file alone when LogToOutput is
false; it is neither the console sink nor the discard sink.  The code at the failing
input gives the same for the three bands, and for a logger built by NewLogger. -/
theorem failed_open_keeps_nil_file :
    (∀ (env : Env) (cfg : Config), cfg.LogToFile = true → cfg.DebugFile ≠ [] →
        env.canOpen cfg.DebugFile = false →
        getDebugWriter env cfg =
          if cfg.LogToOutput = true then Writer.multi Writer.stdout Writer.nilFile
          else Writer.nilFile) ∧
      getDebugWriter Env.noFiles fileConfig = Writer.multi Writer.stdout Writer.nilFile ∧
      getInfoWriter Env.noFiles fileConfig = Writer.multi Writer.stdout Writer.nilFile ∧
      getErrorWriter Env.noFiles fileConfig = Writer.multi Writer.stderr Writer.nilFile ∧
      (NewLogger Env.noFiles fileConfig).DebugWriter = Writer.multi Writer.stdout Writer.nilFile ∧
      getDebugWriter Env.noFiles fileOnlyConfig = Writer.nilFile ∧
      (NewLogger Env.noFiles fileOnlyConfig).ErrorWriter = Writer.nilFile := by
  refine ⟨?_, by decide!, by decide!, by decide!, by decide!, by decide!, by decide!⟩
  intro env cfg h1 h2 h3
  unfold getDebugWriter
  simp only [h1, getWriter_failed env _ _ h2 h3]
  cases cfg.LogToOutput <;> simp

/-! ## Tags: the padding step -/

theorem GenerateTag_eq (env : Env) (tagText colorSequence : GoString) (cfg : Config) :
    GenerateTag env tagText colorSequence cfg =
      tagWith env tagText colorSequence cfg.LevelTextInnerFormat cfg.LevelTextOuterFormat
        cfg.ResetColor cfg.LevelTextPadding cfg.LevelTextLeftJustify := rfl

theorem len_stripFrom_le (s : GoString) : ∀ k : Nat, len (stripFrom k s) ≤ len s := by
  induction s with
  | nil =>
    intro k
    cases k <;> simp [stripFrom, len]
  | cons c cs ih =>
    intro k
    cases k with
    | zero =>
      simp only [stripFrom]
      split
      · have := ih ((c :: cs).length - (by assumption : GoString).length - 1)
        simp only [len]
        omega
      · have := ih 0
        simp only [len]
        omega
    | succ k =>
      have := ih k
      simp only [stripFrom, len]
      omega

theorem len_removeAnsi_le (s : GoString) : len (removeAnsi s) ≤ len s :=
  len_stripFrom_le s 0

theorem wrapInt_of_small (x : Int) (h1 : -10000009 ≤ x) (h2 : x ≤ 10000009) : wrapInt x = x := by
  unfold wrapInt
  have h63 : (2 : Int) ^ 63 = 9223372036854775808 := by norm_num
  have h64 : (2 : Int) ^ 64 = 18446744073709551616 := by norm_num
  rw [h63, h64]
  omega

theorem digitChar_isDigit (d : Nat) (h : d < 10) :
    isDigit (digitChar d) = true ∧ (digitChar d).toNat - 48 = d ∧ digitChar d ≠ '%' := by
  interval_cases d <;> decide

theorem doPrintf_first_digit (m z : Bool) (a : List Value) (rest : GoString) (n : Nat)
    (h1 : 1 ≤ n) (h2 : n < 10) :
    doPrintf (.flags m z) (digitChar n :: rest) a = doPrintf (.width m z n) rest a := by
  interval_cases n <;> simp [doPrintf, digitChar, isDigit]

/-- Reading the decimal digits of a width brings the scan to the width itself, as long
as the number before its last digit is at most 1000000: up to the width 10000009. -/
theorem doPrintf_digits (m z : Bool) (a : List Value) :
    ∀ (f n : Nat) (rest : GoString), 1 ≤ n → n ≤ f → n ≤ 10000009 →
      doPrintf (.flags m z) (natDigits (f + 1) n ++ rest) a = doPrintf (.width m z n) rest a := by
  intro f
  induction f with
  | zero =>
    intro n rest h1 h2 _
    omega
  | succ f ih =>
    intro n rest h1 h2 h3
    unfold natDigits
    by_cases h : n < 10
    · rw [if_pos h]
      exact doPrintf_first_digit m z a rest n h1 h
    · rw [if_neg h, List.append_assoc, ih (n / 10) _ (by omega) (by omega) (by omega)]
      obtain ⟨d1, d2, _⟩ := digitChar_isDigit (n % 10) (by omega)
      simp only [List.singleton_append, doPrintf, d1, if_true, d2]
      rw [if_neg (by omega)]
      congr 2
      omega

theorem doPrintf_width_s (m : Bool) (n : Nat) (s : GoString) :
    doPrintf (.width m false n) ['s'] [.str s] = some (padString m (some n) s) := by
  simp [doPrintf, isDigit, printArg]

/-- The last call of `fmt.Sprintf` in `GenerateTag`: a width that fmt parses, at most
10000009, pads the tag, on the right when the width was negated. -/
theorem Sprintf_pad (env : Env) (w : Nat) (hw : w ≤ 10000009) (left : Bool) (s : GoString) :
    Sprintf env ("%".toList ++ itoa (if left = true then -(w : Int) else (w : Int)) ++ "s".toList)
        [.str s] =
      padString left (some w) s := by
  apply Sprintf_of_some
  rcases Nat.eq_zero_or_pos w with h0 | hpos
  · subst h0
    cases left <;> simp [itoa, natDigits, digitChar, doPrintf, isDigit, printArg, padString]
  · cases left
    · have hi : itoa (w : Int) = natDigits (w + 1) w := by
        unfold itoa
        rw [if_neg (by omega)]
        rfl
      simp only [Bool.false_eq_true, if_false, hi]
      show doPrintf .text ('%' :: (natDigits (w + 1) w ++ ['s'])) [.str s] = _
      rw [doPrintf, if_pos rfl, doPrintf_digits false false _ w w _ hpos (le_refl _) hw,
        doPrintf_width_s]
    · have hi : itoa (-(w : Int)) = '-' :: natDigits (w + 1) w := by
        unfold itoa
        rw [if_pos (by omega)]
        simp
      simp only [if_true, hi]
      show doPrintf .text ('%' :: '-' :: (natDigits (w + 1) w ++ ['s'])) [.str s] = _
      rw [doPrintf, if_pos rfl, doPrintf, if_pos rfl,
        doPrintf_digits true false _ w w _ hpos (le_refl _) hw, doPrintf_width_s]

theorem Sprintf_v_int (env : Env) (n : Int) : Sprintf env "%v".toList [.int n] = itoa n := by
  apply Sprintf_of_some
  simp [doPrintf, isDigit, printArg]

/-- The result of `GenerateTag` when the pad width is one that fmt parses. -/
theorem GenerateTag_padded (env : Env) (tagText colorSequence : GoString) (cfg : Config)
    (hpad : 0 ≤ cfg.LevelTextPadding) (hwid : padWidth env tagText colorSequence cfg ≤ 10000009) :
    GenerateTag env tagText colorSequence cfg =
      padString cfg.LevelTextLeftJustify (some (padWidth env tagText colorSequence cfg).toNat)
        (bracketTag env tagText colorSequence cfg) := by
  have hle := len_removeAnsi_le (bracketTag env tagText colorSequence cfg)
  have h0 : 0 ≤ padWidth env tagText colorSequence cfg := by
    unfold padWidth
    omega
  have hnat : ((padWidth env tagText colorSequence cfg).toNat : Int) =
      padWidth env tagText colorSequence cfg := Int.toNat_of_nonneg h0
  have hw : wrapInt (padWidth env tagText colorSequence cfg) =
      padWidth env tagText colorSequence cfg := wrapInt_of_small _ (by omega) hwid
  have hneg : wrapInt (padWidth env tagText colorSequence cfg * -1) =
      -padWidth env tagText colorSequence cfg := by
    rw [wrapInt_of_small _ (by omega) (by omega)]
    omega
  have key := Sprintf_pad env (padWidth env tagText colorSequence cfg).toNat (by omega)
    cfg.LevelTextLeftJustify (bracketTag env tagText colorSequence cfg)
  rw [hnat] at key
  rw [GenerateTag_eq, ← key]
  unfold tagWith
  simp only []
  rw [Sprintf_v_int]
  show Sprintf env ("%".toList ++ itoa (if cfg.LevelTextLeftJustify = true then
      wrapInt (wrapInt (padWidth env tagText colorSequence cfg) * -1)
    else wrapInt (padWidth env tagText colorSequence cfg)) ++ "s".toList)
      [.str (bracketTag env tagText colorSequence cfg)] = _
  rw [hw, hneg]

/-- C11. With a padding that is not negative and a pad width of at most 10000009, the
largest width that fmt parses, GenerateTag returns the outer-formatted bracketed tag F
with k spaces prepended, or appended when LevelTextLeftJustify is true, where
k = max(0, padWidth - number of characters of F) and
padWidth = LevelTextPadding + (len(F) - len(removeAnsi(F))); no character of F is
removed, and the result is F itself when padWidth does not exceed the number of
characters of F. -/
theorem padding_only_adds_spaces (env : Env) (tagText colorSequence : GoString) (cfg : Config)
    (hpad : 0 ≤ cfg.LevelTextPadding) (hwid : padWidth env tagText colorSequence cfg ≤ 10000009) :
    GenerateTag env tagText colorSequence cfg =
        (if cfg.LevelTextLeftJustify = true then
          bracketTag env tagText colorSequence cfg ++
            List.replicate
              ((padWidth env tagText colorSequence cfg).toNat -
                (bracketTag env tagText colorSequence cfg).length) ' '
        else
          List.replicate
              ((padWidth env tagText colorSequence cfg).toNat -
                (bracketTag env tagText colorSequence cfg).length) ' ' ++
            bracketTag env tagText colorSequence cfg) ∧
      ((padWidth env tagText colorSequence cfg).toNat ≤
          (bracketTag env tagText colorSequence cfg).length →
        GenerateTag env tagText colorSequence cfg = bracketTag env tagText colorSequence cfg) := by
  rw [GenerateTag_padded env tagText colorSequence cfg hpad hwid]
  unfold padString
  constructor
  · rfl
  · intro h
    simp only [Nat.sub_eq_zero_of_le h]
    cases cfg.LevelTextLeftJustify <;> simp

theorem padding_only_adds_spaces_witness :
    0 ≤ widePadConfig.LevelTextPadding ∧
      padWidth Env.sample "INFO".toList ColorCyan widePadConfig ≤ 10000009 ∧
      GenerateTag Env.sample "INFO".toList ColorCyan widePadConfig =
        "  [\x1b[36m   INFO\x1b[0m] ".toList :=
  ⟨by decide!, by decide!,
    by
      rw [(padding_only_adds_spaces Env.sample "INFO".toList ColorCyan widePadConfig (by decide!)
        (by decide!)).1]
      decide!⟩

/-- The label of one two-byte character: fmt pads by characters, so the tag gets two
spaces where a count in bytes, 21 - 20, gives one.  And a pad width of 10000010, one
more than fmt parses: the result is the error report of fmt around the tag, not the
tag with spaces. -/
theorem padding_counts_characters :
    padWidth Env.sample "INFO".toList ColorCyan hugePadConfig = 10000010 ∧
      GenerateTag Env.sample "INFO".toList ColorCyan hugePadConfig =
        "%!(NOVERB)%!(EXTRA string=[\x1b[36m   INFO\x1b[0m] )".toList ∧
      bracketTag Env.sample "é".toList ColorCyan widePadConfig =
        "[\x1b[36m      é\x1b[0m] ".toList ∧
      padWidth Env.sample "é".toList ColorCyan widePadConfig = 21 ∧
      len (bracketTag Env.sample "é".toList ColorCyan widePadConfig) = 20 ∧
      GenerateTag Env.sample "é".toList ColorCyan widePadConfig =
        List.replicate 2 ' ' ++ bracketTag Env.sample "é".toList ColorCyan widePadConfig ∧
      GenerateTag Env.sample "é".toList ColorCyan widePadConfig ≠
        List.replicate (21 - len (bracketTag Env.sample "é".toList ColorCyan widePadConfig)) ' ' ++
          bracketTag Env.sample "é".toList ColorCyan widePadConfig := by
  decide!

theorem default_info_tag_value (env : Env) :
    GenerateTag env "INFO".toList ColorCyan (NewConfig env) = "[\x1b[36m   INFO\x1b[0m] ".toList := by
  rw [GenerateTag_eq, NewConfig_LevelTextInnerFormat, NewConfig_LevelTextOuterFormat,
    NewConfig_LevelTextPadding, NewConfig_LevelTextLeftJustify, NewConfig_ResetColor]
  exact tagWith_of_pure env _ _ _ _ _ _ _ _ (by decide!)

/-- C10. GenerateTag("INFO", ColorCyan, NewConfig()) is "[" + cyan + "   INFO" + reset
+ "] ": its raw length is 19 = 10 + 9, the padding plus the nine bytes of the two
colour sequences, and its text without the colour codes is "[   INFO] ", ten
characters with the label right-justified to seven inside the brackets, no leading
space and one trailing space. -/
theorem default_info_tag (env : Env) :
    GenerateTag env "INFO".toList ColorCyan (NewConfig env) = "[\x1b[36m   INFO\x1b[0m] ".toList ∧
      removeAnsi (GenerateTag env "INFO".toList ColorCyan (NewConfig env)) = "[   INFO] ".toList ∧
      len (removeAnsi (GenerateTag env "INFO".toList ColorCyan (NewConfig env))) = 10 ∧
      len (GenerateTag env "INFO".toList ColorCyan (NewConfig env)) = 10 + 9 ∧
      len ColorCyan + len ColorReset = 9 := by
  rw [default_info_tag_value]
  decide!

/-- The text of the default INFO tag without its colour codes is not "   [  INFO] ",
and its length is 10, not 10 plus the nine bytes of the colour codes. -/
theorem default_info_tag_stripped :
    removeAnsi (GenerateTag Env.sample "INFO".toList ColorCyan (NewConfig Env.sample)) =
        "[   INFO] ".toList ∧
      removeAnsi (GenerateTag Env.sample "INFO".toList ColorCyan (NewConfig Env.sample)) ≠
        "   [  INFO] ".toList ∧
      len (removeAnsi (GenerateTag Env.sample "INFO".toList ColorCyan (NewConfig Env.sample))) ≠
        10 + 9 := by
  decide!

/-! ## The pattern of `removeAnsi` on colour sequences -/

theorem char_eq_of_toNat (c d : Char) (h : c.toNat = d.toNat) : c = d :=
  Char.ext (UInt32.ext h)

theorem head_flatMap {α β : Type} (xs : List α) (f : α → List β) (x : α) (y : β)
    (hx : xs.head? = some x) (hy : (f x).head? = some y) : (xs.flatMap f).head? = some y := by
  cases xs with
  | nil => simp at hx
  | cons a as =>
    simp only [List.head?_cons, Option.some.injEq] at hx
    subst hx
    simp [List.flatMap_cons, hy]

theorem starLoop_suffix (f : GoString → List GoString)
    (hf : ∀ s r, r ∈ f s → r <:+ s) : ∀ n s r, r ∈ starLoop f n s → r <:+ s := by
  intro n
  induction n with
  | zero =>
    intro s r h
    simp only [starLoop, List.mem_singleton] at h
    subst h
    exact List.suffix_refl _
  | succ n ih =>
    intro s r h
    simp only [starLoop, List.mem_append, List.mem_flatMap, List.mem_singleton] at h
    rcases h with ⟨r1, h1, h2⟩ | h
    · exact (ih r1 r h2).trans (hf s r1 h1)
    · subst h
      exact List.suffix_refl _

/-- Every way of matching leaves a suffix of the input. -/
theorem run_suffix (e : Re) : ∀ s r, r ∈ e.run s → r <:+ s := by
  induction e with
  | cls rs =>
    intro s r h
    cases s with
    | nil => simp [Re.run] at h
    | cons c cs =>
      simp only [Re.run] at h
      split at h
      · simp only [List.mem_singleton] at h
        rw [h]
        exact List.suffix_cons c cs
      · simp at h
  | seq a b iha ihb =>
    intro s r h
    simp only [Re.run, List.mem_flatMap] at h
    obtain ⟨r1, h1, h2⟩ := h
    exact (ihb r1 r h2).trans (iha s r1 h1)
  | alt a b iha ihb =>
    intro s r h
    simp only [Re.run, List.mem_append] at h
    rcases h with h | h
    · exact iha s r h
    · exact ihb s r h
  | opt a iha =>
    intro s r h
    simp only [Re.run, List.mem_append, List.mem_singleton] at h
    rcases h with h | h
    · exact iha s r h
    · subst h
      exact List.suffix_refl _
  | star a iha =>
    intro s r h
    simp only [Re.run] at h
    exact starLoop_suffix a.run iha _ s r h

theorem reBel_run (s : GoString) (h : BEL ∉ s) : reBel.run s = [] := by
  cases s with
  | nil => rfl
  | cons c cs =>
    have hc : c ≠ BEL := fun e => h (by simp [e])
    have hn : c.toNat ≠ BEL.toNat := fun e => hc (char_eq_of_toNat _ _ e)
    simp only [reBel, Re.run, inRanges, Bool.or_false, Bool.and_eq_true, decide_eq_true_eq]
    rw [if_neg]
    omega

/-- The first alternative of the pattern needs a bell. -/
theorem reOsc_run (s : GoString) (h : BEL ∉ s) : reOsc.run s = [] := by
  unfold reOsc
  rw [Re.run, List.flatMap_eq_nil_iff]
  intro r hr
  exact reBel_run r fun hb => h ((run_suffix _ s r hr).subset hb)

theorem reDigit_run_cons (c : Char) (cs : GoString) :
    reDigit.run (c :: cs) = if isDigit c = true then [cs] else [] := by
  have h0 : '0'.toNat = 48 := rfl
  have h9 : '9'.toNat = 57 := rfl
  simp [reDigit, Re.run, inRanges, isDigit, h0, h9]

theorem reSemi_run_cons (c : Char) (cs : GoString) :
    reSemi.run (c :: cs) = if c = ';' then [cs] else [] := by
  by_cases h : c = ';'
  · subst h
    rfl
  · have hn : c.toNat ≠ (';' : Char).toNat := fun e => h (char_eq_of_toNat _ _ e)
    simp only [reSemi, Re.run, inRanges, Bool.or_false, Bool.and_eq_true, decide_eq_true_eq, h,
      if_false]
    rw [if_neg]
    omega

/-- At most four characters of a class, followed by something outside the class, are
all taken by the greedy `x{0,4}`. -/
theorem rep04_taken (a : Re) (ds t : GoString) (hds : ∀ c ∈ ds, ∀ cs, a.run (c :: cs) = [cs])
    (hlen : ds.length ≤ 4) (ht : a.run t = []) : ((Re.rep04 a).run (ds ++ t)).head? = some t := by
  match ds, hds, hlen with
  | [], _, _ => simp [Re.rep04, Re.rep14, Re.upTo, Re.run, ht]
  | [x], hds, _ =>
    have hx := hds x (by simp)
    simp [Re.rep04, Re.rep14, Re.upTo, Re.run, ht, hx]
  | [x, y], hds, _ =>
    have hx := hds x (by simp)
    have hy := hds y (by simp)
    simp [Re.rep04, Re.rep14, Re.upTo, Re.run, ht, hx, hy]
  | [x, y, z], hds, _ =>
    have hx := hds x (by simp)
    have hy := hds y (by simp)
    have hz := hds z (by simp)
    simp [Re.rep04, Re.rep14, Re.upTo, Re.run, ht, hx, hy, hz]
  | [x, y, z, w], hds, _ =>
    have hx := hds x (by simp)
    have hy := hds y (by simp)
    have hz := hds z (by simp)
    have hw := hds w (by simp)
    simp [Re.rep04, Re.rep14, Re.upTo, Re.run, ht, hx, hy, hz, hw]
  | _ :: _ :: _ :: _ :: _ :: _, _, hlen => simp at hlen

/-- One to four characters of a class, followed by something outside the class, are
all taken by the greedy `x{1,4}`. -/
theorem rep14_taken (a : Re) (ds t : GoString) (hds : ∀ c ∈ ds, ∀ cs, a.run (c :: cs) = [cs])
    (hne : ds ≠ []) (hlen : ds.length ≤ 4) (ht : a.run t = []) :
    ((Re.rep14 a).run (ds ++ t)).head? = some t := by
  match ds, hds, hne, hlen with
  | [], _, hne, _ => exact absurd rfl hne
  | [x], hds, _, _ =>
    have hx := hds x (by simp)
    simp [Re.rep14, Re.upTo, Re.run, ht, hx]
  | [x, y], hds, _, _ =>
    have hx := hds x (by simp)
    have hy := hds y (by simp)
    simp [Re.rep14, Re.upTo, Re.run, ht, hx, hy]
  | [x, y, z], hds, _, _ =>
    have hx := hds x (by simp)
    have hy := hds y (by simp)
    have hz := hds z (by simp)
    simp [Re.rep14, Re.upTo, Re.run, ht, hx, hy, hz]
  | [x, y, z, w], hds, _, _ =>
    have hx := hds x (by simp)
    have hy := hds y (by simp)
    have hz := hds z (by simp)
    have hw := hds w (by simp)
    simp [Re.rep14, Re.upTo, Re.run, ht, hx, hy, hz, hw]
  | _ :: _ :: _ :: _ :: _ :: _, _, _, hlen => simp at hlen

theorem reDigit_run_digit (c : Char) (h : isDigit c = true) (cs : GoString) :
    reDigit.run (c :: cs) = [cs] := by
  rw [reDigit_run_cons, if_pos h]

/-- A code splits into its first run of digits and the rest, which is empty or starts
with a semicolon. -/
theorem codeFrom_split : ∀ (code : GoString) (k : Nat), k ≤ 4 → codeFrom k code = true →
    ∃ ds tl, code = ds ++ tl ∧ (∀ c ∈ ds, isDigit c = true) ∧ k + ds.length ≤ 4 ∧
      (tl = [] ∨ ∃ tl2, tl = ';' :: tl2 ∧ codeFrom 0 tl2 = true) := by
  intro code
  induction code with
  | nil =>
    intro k hk _
    exact ⟨[], [], rfl, by simp, by simpa using hk, Or.inl rfl⟩
  | cons c cs ih =>
    intro k hk h
    unfold codeFrom at h
    by_cases hc : c = ';'
    · rw [if_pos hc] at h
      subst hc
      exact ⟨[], ';' :: cs, rfl, by simp, by simpa using hk, Or.inr ⟨cs, rfl, h⟩⟩
    · rw [if_neg hc] at h
      simp only [Bool.and_eq_true, decide_eq_true_eq] at h
      obtain ⟨⟨hd, hk4⟩, hrest⟩ := h
      obtain ⟨ds, tl, e, hds, hl, htl⟩ := ih (k + 1) (by omega) hrest
      refine ⟨c :: ds, tl, by rw [e]; rfl, ?_, by simp only [List.length_cons]; omega, htl⟩
      intro x hx
      rcases List.mem_cons.mp hx with hx | hx
      · rw [hx]
        exact hd
      · exact hds x hx
theorem run_seq (a b : Re) (s : GoString) : (Re.seq a b).run s = (a.run s).flatMap b.run := by
  rw [Re.run]

theorem run_alt (a b : Re) (s : GoString) : (Re.alt a b).run s = a.run s ++ b.run s := by
  rw [Re.run]

theorem run_opt (a : Re) (s : GoString) : (Re.opt a).run s = a.run s ++ [s] := by
  rw [Re.run]

theorem run_star (a : Re) (s : GoString) : (Re.star a).run s = starLoop a.run s.length s := by
  rw [Re.run]

theorem run_cls_cons (rs : List (Char × Char)) (c : Char) (cs : GoString) :
    (Re.cls rs).run (c :: cs) = if inRanges c rs = true then [cs] else [] := by
  rw [Re.run]

theorem head_flatMap2 {α β γ : Type} (xs : List α) (g : α → List β) (h : β → List γ) (x : α)
    (y : γ) (hx : xs.head? = some x) (hy : ((g x).flatMap h).head? = some y) :
    ((xs.flatMap g).flatMap h).head? = some y := by
  rw [List.flatMap_assoc]
  exact head_flatMap xs (fun x => (g x).flatMap h) x y hx hy

theorem reFinal_run_m (rest : GoString) : reFinal.run ('m' :: rest) = [rest] := by
  unfold reFinal
  rw [run_cls_cons]
  exact if_pos (by decide)

theorem reDigit_run_tail (tl rest : GoString)
    (h : tl = [] ∨ ∃ tl2, tl = ';' :: tl2 ∧ codeFrom 0 tl2 = true) :
    reDigit.run (tl ++ 'm' :: rest) = [] := by
  rcases h with rfl | ⟨x, rfl, _⟩
  · rw [List.nil_append, reDigit_run_cons, if_neg (by decide)]
  · rw [List.cons_append, reDigit_run_cons, if_neg (by decide)]

/-- The greedy loop `(?:;\d{0,4})*` followed by the final class takes the rest of a
code and the letter `m`. -/
theorem csiTail_head (rest : GoString) : ∀ (n : Nat) (tl : GoString), tl.length ≤ n →
    (tl = [] ∨ ∃ tl2, tl = ';' :: tl2 ∧ codeFrom 0 tl2 = true) →
    ((starLoop (Re.seq reSemi (Re.rep04 reDigit)).run n (tl ++ 'm' :: rest)).flatMap
      reFinal.run).head? = some rest := by
  intro n
  induction n using Nat.strong_induction_on with
  | _ n ih =>
    intro tl hlen htl
    rcases htl with rfl | ⟨tl2, rfl, hc⟩
    · have hf : (Re.seq reSemi (Re.rep04 reDigit)).run ('m' :: rest) = [] := by
        rw [run_seq, reSemi_run_cons, if_neg (by decide)]
        rfl
      have hs : starLoop (Re.seq reSemi (Re.rep04 reDigit)).run n ('m' :: rest) = ['m' :: rest] := by
        cases n with
        | zero => rfl
        | succ k =>
          rw [starLoop, hf]
          rfl
      rw [List.nil_append, hs]
      simp [reFinal_run_m]
    · obtain ⟨ds, tl3, e, hds, hl, htl3⟩ := codeFrom_split tl2 0 (by omega) hc
      subst e
      cases n with
      | zero => simp at hlen
      | succ k =>
        have hnd := reDigit_run_tail tl3 rest htl3
        have hx : ((Re.seq reSemi (Re.rep04 reDigit)).run
            (';' :: (ds ++ (tl3 ++ 'm' :: rest)))).head? = some (tl3 ++ 'm' :: rest) := by
          rw [run_seq, reSemi_run_cons, if_pos rfl]
          simp only [List.flatMap_cons, List.flatMap_nil, List.append_nil]
          exact rep04_taken reDigit ds _ (fun c hc cs => reDigit_run_digit c (hds c hc) cs)
            (by omega) hnd
        have hy := ih k (Nat.lt_succ_self k) tl3
          (by simp only [List.length_cons, List.length_append] at hlen; omega) htl3
        simp only [List.cons_append, List.append_assoc]
        rw [starLoop, List.flatMap_append, List.head?_append, head_flatMap2 _ _ _ _ _ hx hy]
        rfl

/-- The second alternative of the pattern takes a whole code and the letter `m`. -/
theorem reCsi_head (code rest : GoString) (hc : codeFrom 0 code = true)
    (hs : code.head? ≠ some ';') : (reCsi.run (code ++ 'm' :: rest)).head? = some rest := by
  obtain ⟨ds, tl, e, hds, hl, htl⟩ := codeFrom_split code 0 (by omega) hc
  subst e
  unfold reCsi
  by_cases hne : ds = []
  · subst hne
    rcases htl with rfl | ⟨tl2, rfl, _⟩
    · have h14 : (Re.rep14 reDigit).run ('m' :: rest) = [] := by
        rw [Re.rep14, run_seq, reDigit_run_cons, if_neg (by decide)]
        rfl
      simp only [List.nil_append]
      rw [run_seq, run_opt, run_seq, h14]
      simp [reFinal_run_m]
    · exact absurd rfl hs
  · have hnd := reDigit_run_tail tl rest htl
    have hx := rep14_taken reDigit ds (tl ++ 'm' :: rest)
      (fun c hc cs => reDigit_run_digit c (hds c hc) cs) hne (by omega) hnd
    have hy : (((Re.star (Re.seq reSemi (Re.rep04 reDigit))).run (tl ++ 'm' :: rest)).flatMap
        reFinal.run).head? = some rest := by
      rw [run_star]
      exact csiTail_head rest _ tl (by simp) htl
    rw [List.append_assoc, run_seq, run_opt, run_seq, List.flatMap_append, List.head?_append,
      head_flatMap2 _ _ _ _ _ hx hy]
    rfl

theorem starLoop_cls_head (rs : List (Char × Char)) : ∀ (s : GoString) (n : Nat), s.length ≤ n →
    (starLoop (Re.cls rs).run n s).head? = some (s.dropWhile fun c => inRanges c rs) := by
  intro s
  induction s with
  | nil =>
    intro n _
    cases n <;> simp [starLoop, Re.run]
  | cons c cs ih =>
    intro n hn
    cases n with
    | zero => simp at hn
    | succ k =>
      rw [starLoop, run_cls_cons]
      by_cases hc : inRanges c rs = true
      · rw [if_pos hc]
        simp only [List.flatMap_cons, List.flatMap_nil, List.append_nil, List.head?_append]
        rw [ih k (by simpa using hn)]
        simp [List.dropWhile, hc]
      · rw [if_neg hc]
        simp [List.dropWhile, hc]

theorem punct_digit (c : Char) (h : isDigit c = true) : inRanges c punctClass = false := by
  have e1 : '['.toNat = 91 := rfl
  have e2 : ']'.toNat = 93 := rfl
  have e3 : '('.toNat = 40 := rfl
  have e4 : ')'.toNat = 41 := rfl
  have e5 : '#'.toNat = 35 := rfl
  have e6 : ';'.toNat = 59 := rfl
  have e7 : '?'.toNat = 63 := rfl
  simp only [isDigit, Bool.and_eq_true, decide_eq_true_eq] at h
  simp only [punctClass, inRanges, e1, e2, e3, e4, e5, e6, e7, Bool.or_false, Bool.or_eq_false_iff,
    Bool.and_eq_false_imp, decide_eq_true_eq, decide_eq_false_iff_not]
  omega

theorem codeFrom_chars : ∀ (code : GoString) (k : Nat), codeFrom k code = true →
    ∀ c ∈ code, c = ';' ∨ isDigit c = true := by
  intro code
  induction code with
  | nil =>
    intro k _ c hc
    simp at hc
  | cons x xs ih =>
    intro k h c hc
    unfold codeFrom at h
    by_cases hx : x = ';'
    · rw [if_pos hx] at h
      rcases List.mem_cons.mp hc with e | e
      · exact Or.inl (e.trans hx)
      · exact ih 0 h c e
    · rw [if_neg hx] at h
      simp only [Bool.and_eq_true, decide_eq_true_eq] at h
      rcases List.mem_cons.mp hc with e | e
      · exact Or.inr (e ▸ h.1.1)
      · exact ih (k + 1) h.2 c e

/-- The punctuation loop of the pattern stops at the first digit of a code, or at the
letter `m`. -/
theorem code_dropWhile (rest : GoString) : ∀ code : GoString, codeFrom 0 code = true →
    ∃ code2, (code ++ 'm' :: rest).dropWhile (fun c => inRanges c punctClass) = code2 ++ 'm' :: rest ∧
      codeFrom 0 code2 = true ∧ code2.head? ≠ some ';' ∧ ∀ c ∈ code2, c = ';' ∨ isDigit c = true := by
  intro code
  induction code with
  | nil =>
    intro _
    refine ⟨[], ?_, rfl, by simp, by simp⟩
    rw [List.nil_append, List.dropWhile_cons, if_neg (by decide)]
  | cons x xs ih =>
    intro h
    have hall := codeFrom_chars (x :: xs) 0 h
    unfold codeFrom at h
    by_cases hx : x = ';'
    · rw [if_pos hx] at h
      obtain ⟨code2, h1, h2, h3, h4⟩ := ih h
      refine ⟨code2, ?_, h2, h3, h4⟩
      rw [List.cons_append, List.dropWhile_cons, if_pos (by rw [hx]; decide)]
      exact h1
    · have hd : isDigit x = true := by
        rcases hall x (by simp) with e | e
        · exact absurd e hx
        · exact e
      refine ⟨x :: xs, ?_, ?_, ?_, hall⟩
      · rw [List.cons_append, List.dropWhile_cons, if_neg (by rw [punct_digit x hd]; decide)]
      · unfold codeFrom
        exact h
      · simp only [List.head?_cons, ne_eq, Option.some.injEq]
        exact hx

theorem NewColor_append (code rest : GoString) :
    NewColor code ++ rest = ESC :: '[' :: (code ++ 'm' :: rest) := by
  have e : "\x1b[".toList = [ESC, '['] := by decide
  unfold NewColor
  rw [e]
  simp

/-- The pattern matches a whole colour sequence at its escape character, and no more. -/
theorem matchAnsi_color (code rest : GoString) (hc : codeOk code = true) (hb : BEL ∉ rest) :
    matchAnsi (NewColor code ++ rest) = some rest := by
  obtain ⟨code2, hdw, hc2, hs2, hall⟩ := code_dropWhile rest code hc
  have hbel : BEL ∉ code2 ++ 'm' :: rest := by
    intro hm
    rcases List.mem_append.mp hm with h | h
    · rcases hall BEL h with e | e
      · exact absurd e (by decide)
      · exact absurd e (by decide)
    · rcases List.mem_cons.mp h with e | e
      · exact absurd e (by decide)
      · exact hb e
  have hx : (starLoop rePunct.run ('[' :: (code ++ 'm' :: rest)).length
      ('[' :: (code ++ 'm' :: rest))).head? = some (code2 ++ 'm' :: rest) := by
    have e : rePunct = Re.cls punctClass := rfl
    rw [e, starLoop_cls_head punctClass _ _ (le_refl _), List.dropWhile_cons, if_pos (by decide), hdw]
  have hy : ((Re.alt reOsc reCsi).run (code2 ++ 'm' :: rest)).head? = some rest := by
    rw [run_alt, reOsc_run _ hbel, List.nil_append]
    exact reCsi_head code2 rest hc2 hs2
  have hi : reIntro.run (ESC :: '[' :: (code ++ 'm' :: rest)) = ['[' :: (code ++ 'm' :: rest)] := by
    unfold reIntro
    rw [run_cls_cons]
    exact if_pos (by decide)
  rw [NewColor_append]
  unfold matchAnsi ansiPattern
  rw [run_seq, hi]
  simp only [List.flatMap_cons, List.flatMap_nil, List.append_nil]
  rw [run_seq, run_star]
  exact head_flatMap _ _ _ _ hx hy
/-! ## `removeAnsi` on a generated tag -/

theorem stripFrom_skip : ∀ (u v : GoString), stripFrom u.length (u ++ v) = stripFrom 0 v := by
  intro u
  induction u with
  | nil =>
    intro v
    rfl
  | cons c u ih =>
    intro v
    rw [List.length_cons, List.cons_append, stripFrom]
    exact ih v

theorem matchAnsi_plain (c : Char) (cs : GoString) (h1 : c ≠ ESC) (h2 : c ≠ CSI) :
    matchAnsi (c :: cs) = none := by
  have n1 : c.toNat ≠ ESC.toNat := fun e => h1 (char_eq_of_toNat _ _ e)
  have n2 : c.toNat ≠ CSI.toNat := fun e => h2 (char_eq_of_toNat _ _ e)
  have hi : reIntro.run (c :: cs) = [] := by
    unfold reIntro
    rw [run_cls_cons, if_neg]
    simp only [inRanges, Bool.or_false, Bool.or_eq_true, Bool.and_eq_true, decide_eq_true_eq]
    omega
  unfold matchAnsi ansiPattern
  rw [run_seq, hi]
  rfl

theorem stripFrom_plain : ∀ (u v : GoString), (∀ c ∈ u, c ≠ ESC ∧ c ≠ CSI) →
    stripFrom 0 (u ++ v) = u ++ stripFrom 0 v := by
  intro u
  induction u with
  | nil =>
    intro v _
    rfl
  | cons c u ih =>
    intro v h
    obtain ⟨h1, h2⟩ := h c (by simp)
    rw [List.cons_append, stripFrom, matchAnsi_plain c _ h1 h2]
    simp only [List.cons_append, List.cons.injEq, true_and]
    exact ih v fun x hx => h x (List.mem_cons_of_mem c hx)

theorem stripFrom_color (code rest : GoString) (hc : codeOk code = true) (hb : BEL ∉ rest) :
    stripFrom 0 (NewColor code ++ rest) = stripFrom 0 rest := by
  have hm := matchAnsi_color code rest hc hb
  rw [NewColor_append] at hm ⊢
  rw [stripFrom, hm]
  have hl : (ESC :: '[' :: (code ++ 'm' :: rest)).length - rest.length - 1 =
      ('[' :: (code ++ ['m'])).length := by
    simp only [List.length_cons, List.length_append, List.length_nil]
    omega
  have hs : '[' :: (code ++ 'm' :: rest) = ('[' :: (code ++ ['m'])) ++ rest := by simp
  simp only []
  rw [hl, hs]
  exact stripFrom_skip _ _

theorem plainText_iff (s : GoString) :
    plainText s = true ↔ ∀ c ∈ s, c ≠ ESC ∧ c ≠ CSI ∧ c ≠ BEL := by
  unfold plainText
  simp only [List.all_eq_true, Bool.and_eq_true, bne_iff_ne, ne_eq, and_assoc]

theorem plainText_append (s t : GoString) (hs : plainText s = true) (ht : plainText t = true) :
    plainText (s ++ t) = true := by
  unfold plainText at *
  rw [List.all_append, hs, ht]
  rfl

theorem plainText_spaces (k : Nat) : plainText (List.replicate k ' ') = true := by
  rw [plainText_iff]
  intro c hc
  rw [List.eq_of_mem_replicate hc]
  decide

theorem padString_plain (minus : Bool) (w : Nat) (s : GoString) (hs : plainText s = true) :
    plainText (padString minus (some w) s) = true := by
  unfold padString
  cases minus
  · exact plainText_append _ _ (plainText_spaces _) hs
  · exact plainText_append _ _ hs (plainText_spaces _)

/-- The text of a tag: the colour sequence and the reset sequence go, the rest stays. -/
theorem stripFrom_tag (code inner tail : GoString) (hc : codeOk code = true)
    (hi : plainText inner = true) (ht : plainText tail = true) :
    stripFrom 0 ('[' :: (NewColor code ++ (inner ++ (ColorReset ++ tail)))) =
      '[' :: (inner ++ tail) := by
  have hr : ColorReset = NewColor "0".toList := by decide
  have pi := (plainText_iff inner).mp hi
  have pt := (plainText_iff tail).mp ht
  have b1 : BEL ∉ tail := fun h => (pt BEL h).2.2 rfl
  have b2 : BEL ∉ inner ++ (NewColor "0".toList ++ tail) := by
    intro h
    rcases List.mem_append.mp h with h | h
    · exact (pi BEL h).2.2 rfl
    · rcases List.mem_append.mp h with h | h
      · exact absurd h (by decide)
      · exact b1 h
  have s1 := stripFrom_plain ['['] (NewColor code ++ (inner ++ (NewColor "0".toList ++ tail)))
    (by intro c hc; rw [List.mem_singleton.mp hc]; decide)
  have s3 := stripFrom_plain inner (NewColor "0".toList ++ tail) fun c hc => ⟨(pi c hc).1, (pi c hc).2.1⟩
  have s5 := stripFrom_plain tail [] fun c hc => ⟨(pt c hc).1, (pt c hc).2.1⟩
  rw [List.append_nil] at s5
  rw [List.singleton_append] at s1
  rw [hr, s1, stripFrom_color code _ hc b2, s3, stripFrom_color "0".toList _ (by decide) b1, s5]
  simp [stripFrom]

theorem Sprintf_inner (env : Env) (s : GoString) :
    Sprintf env "%7s".toList [.str s] = padString false (some 7) s := by
  apply Sprintf_of_some
  simp [doPrintf, isDigit, printArg]

theorem Sprintf_bracket (env : Env) (c i r : GoString) :
    Sprintf env "[%s%s%s]".toList [.str c, .str i, .str r] = '[' :: (c ++ (i ++ (r ++ [']']))) := by
  apply Sprintf_of_some
  simp [doPrintf, isDigit, printArg, padString]

theorem Sprintf_outer (env : Env) (b : GoString) :
    Sprintf env "%s ".toList [.str b] = b ++ [' '] := by
  apply Sprintf_of_some
  simp [doPrintf, isDigit, printArg, padString]

/-- The tag before padding, in the default formats and with the default reset colour. -/
theorem bracketTag_default (env : Env) (label color : GoString) (cfg : Config)
    (hin : cfg.LevelTextInnerFormat = "%7s".toList) (hout : cfg.LevelTextOuterFormat = "%s ".toList)
    (hreset : cfg.ResetColor = ColorReset) :
    bracketTag env label color cfg =
      '[' :: (color ++ (padString false (some 7) label ++ (ColorReset ++ [']', ' ']))) := by
  unfold bracketTag
  rw [hin, hout, hreset, Sprintf_inner, Sprintf_bracket, Sprintf_outer]
  simp

theorem len_append (s t : GoString) : len (s ++ t) = len s + len t := by
  induction s with
  | nil => simp [len]
  | cons c cs ih =>
    show runeLen c + len (cs ++ t) = runeLen c + len cs + len t
    rw [ih]
    omega

theorem len_code (code : GoString) (h : ∀ c ∈ code, c = ';' ∨ isDigit c = true) :
    len code = code.length := by
  induction code with
  | nil => rfl
  | cons c cs ih =>
    have hc : runeLen c = 1 := by
      unfold runeLen
      rcases h c (by simp) with e | e
      · rw [e]
        rfl
      · simp only [isDigit, Bool.and_eq_true, decide_eq_true_eq] at e
        rw [if_pos (by omega)]
    rw [len, hc, ih fun x hx => h x (List.mem_cons_of_mem c hx), List.length_cons]
    omega

theorem len_NewColor (code : GoString) (hc : codeOk code = true) :
    len (NewColor code) = code.length + 3 ∧ (NewColor code).length = code.length + 3 := by
  have e : "\x1b[".toList = [ESC, '['] := by decide
  have e2 : "m".toList = ['m'] := by decide
  unfold NewColor
  rw [e, e2]
  constructor
  · rw [len_append, len_append, len_code code (codeFrom_chars code 0 hc)]
    have h1 : len [ESC, '['] = 2 := by decide
    have h2 : len ['m'] = 1 := by decide
    omega
  · simp only [List.length_append, List.length_cons, List.length_nil]
    omega
/-- The pad width of a tag in the default formats: the padding, and the bytes of the
colour sequence and of the reset sequence. -/
theorem padWidth_default (env : Env) (label code : GoString) (cfg : Config)
    (hin : cfg.LevelTextInnerFormat = "%7s".toList) (hout : cfg.LevelTextOuterFormat = "%s ".toList)
    (hreset : cfg.ResetColor = ColorReset) (hlabel : plainText label = true)
    (hc : codeOk code = true) :
    removeAnsi (bracketTag env label (NewColor code) cfg) =
        '[' :: (padString false (some 7) label ++ [']', ' ']) ∧
      padWidth env label (NewColor code) cfg = cfg.LevelTextPadding + ((code.length : Int) + 7) ∧
      (bracketTag env label (NewColor code) cfg).length =
        code.length + 7 + ('[' :: (padString false (some 7) label ++ [']', ' '])).length := by
  have hI := padString_plain false 7 label hlabel
  have hT : plainText [']', ' '] = true := by decide
  have hb := bracketTag_default env label (NewColor code) cfg hin hout hreset
  have hs : removeAnsi (bracketTag env label (NewColor code) cfg) =
      '[' :: (padString false (some 7) label ++ [']', ' ']) := by
    rw [hb]
    exact stripFrom_tag code _ _ hc hI hT
  obtain ⟨l1, l2⟩ := len_NewColor code hc
  have l3 : len ColorReset = 4 := by decide
  have l4 : ColorReset.length = 4 := by decide
  refine ⟨hs, ?_, ?_⟩
  · unfold padWidth
    rw [hs, hb]
    have e1 : len ('[' :: (NewColor code ++ (padString false (some 7) label ++ (ColorReset ++ [']', ' '])))) =
        1 + (len (NewColor code) + (len (padString false (some 7) label) + (len ColorReset + 2))) := by
      rw [len, len_append, len_append, len_append]
      rfl
    have e2 : len ('[' :: (padString false (some 7) label ++ [']', ' '])) =
        1 + (len (padString false (some 7) label) + 2) := by
      rw [len, len_append]
      rfl
    rw [e1, e2, l1, l3]
    push_cast
    omega
  · rw [hb]
    simp only [List.length_cons, List.length_append, List.length_nil, l2, l4]
    omega

theorem padString_length (minus : Bool) (w : Nat) (s : GoString) :
    (padString minus (some w) s).length = max w s.length := by
  unfold padString
  cases minus <;> simp only [Bool.false_eq_true, if_false, if_true, List.length_append,
    List.length_replicate] <;> omega

/-- The text of a generated tag without its colour sequences does not depend on the
colour code. -/
theorem removeAnsi_GenerateTag (env : Env) (label code : GoString) (cfg : Config)
    (hin : cfg.LevelTextInnerFormat = "%7s".toList) (hout : cfg.LevelTextOuterFormat = "%s ".toList)
    (hreset : cfg.ResetColor = ColorReset) (hlabel : plainText label = true)
    (hpad : 0 ≤ cfg.LevelTextPadding) (hc : codeOk code = true)
    (hw : cfg.LevelTextPadding + ((code.length : Int) + 7) ≤ 10000009) :
    removeAnsi (GenerateTag env label (NewColor code) cfg) =
      padString cfg.LevelTextLeftJustify (some cfg.LevelTextPadding.toNat)
        ('[' :: (padString false (some 7) label ++ [']', ' '])) := by
  obtain ⟨hs, hpw, hlen⟩ := padWidth_default env label code cfg hin hout hreset hlabel hc
  have hb := bracketTag_default env label (NewColor code) cfg hin hout hreset
  have hI := padString_plain false 7 label hlabel
  rw [GenerateTag_padded env label (NewColor code) cfg hpad (by rw [hpw]; exact hw), hpw]
  have hk : (cfg.LevelTextPadding + ((code.length : Int) + 7)).toNat -
        (bracketTag env label (NewColor code) cfg).length =
      cfg.LevelTextPadding.toNat -
        ('[' :: (padString false (some 7) label ++ [']', ' '])).length := by
    rw [hlen]
    omega
  unfold padString
  simp only []
  rw [hk]
  cases cfg.LevelTextLeftJustify
  · simp only [Bool.false_eq_true, if_false]
    have := stripFrom_plain (List.replicate (cfg.LevelTextPadding.toNat -
        ('[' :: (padString false (some 7) label ++ [']', ' '])).length) ' ')
      (bracketTag env label (NewColor code) cfg)
      (fun c hc => by rw [List.eq_of_mem_replicate hc]; decide)
    unfold removeAnsi at hs ⊢
    rw [this, hs]
    rfl
  · simp only [if_true]
    have ht : plainText ([']', ' '] ++ List.replicate (cfg.LevelTextPadding.toNat -
        ('[' :: (padString false (some 7) label ++ [']', ' '])).length) ' ') = true :=
      plainText_append _ _ (by decide) (plainText_spaces _)
    have := stripFrom_tag code (padString false (some 7) label) _ hc hI ht
    unfold removeAnsi
    rw [hb]
    simp only [List.cons_append, List.append_assoc] at this ⊢
    rw [this]
    rfl

/-- C9. For every label free of escape characters (escape, control sequence
introducer, bell), every padding >= 0 and any two colour sequences built by NewColor
from codes made of digits and semicolons whose numbers have at most four digits, with
a pad width (padding + length of the code + 7) of at most 10000009, the largest width
that fmt parses, GenerateTag with the default inner and outer formats and reset colour
returns two tags whose text after removeAnsi is the same, of max(padding, width of the
unpadded tag without its colour sequences) characters. -/
theorem alignment_independent_of_color (env : Env) (label code1 code2 : GoString) (cfg : Config)
    (hin : cfg.LevelTextInnerFormat = "%7s".toList) (hout : cfg.LevelTextOuterFormat = "%s ".toList)
    (hreset : cfg.ResetColor = ColorReset) (hlabel : plainText label = true)
    (hpad : 0 ≤ cfg.LevelTextPadding) (h1 : codeOk code1 = true) (h2 : codeOk code2 = true)
    (hw1 : cfg.LevelTextPadding + ((code1.length : Int) + 7) ≤ 10000009)
    (hw2 : cfg.LevelTextPadding + ((code2.length : Int) + 7) ≤ 10000009) :
    removeAnsi (GenerateTag env label (NewColor code1) cfg) =
        removeAnsi (GenerateTag env label (NewColor code2) cfg) ∧
      (removeAnsi (GenerateTag env label (NewColor code1) cfg)).length =
        max cfg.LevelTextPadding.toNat
          (removeAnsi (bracketTag env label (NewColor code1) cfg)).length ∧
      (removeAnsi (GenerateTag env label (NewColor code2) cfg)).length =
        max cfg.LevelTextPadding.toNat
          (removeAnsi (bracketTag env label (NewColor code2) cfg)).length := by
  rw [removeAnsi_GenerateTag env label code1 cfg hin hout hreset hlabel hpad h1 hw1,
    removeAnsi_GenerateTag env label code2 cfg hin hout hreset hlabel hpad h2 hw2,
    (padWidth_default env label code1 cfg hin hout hreset hlabel h1).1,
    (padWidth_default env label code2 cfg hin hout hreset hlabel h2).1, padString_length]
  exact ⟨rfl, rfl, rfl⟩

theorem alignment_independent_of_color_witness :
    pad25Config.LevelTextInnerFormat = "%7s".toList ∧
      pad25Config.LevelTextOuterFormat = "%s ".toList ∧
      pad25Config.ResetColor = ColorReset ∧ plainText "INFO".toList = true ∧
      0 ≤ pad25Config.LevelTextPadding ∧ codeOk "36".toList = true ∧
      codeOk "38;5;208".toList = true ∧
      removeAnsi (GenerateTag Env.sample "INFO".toList (NewColor "36".toList) pad25Config) =
        removeAnsi (GenerateTag Env.sample "INFO".toList (NewColor "38;5;208".toList) pad25Config) ∧
      removeAnsi (GenerateTag Env.sample "INFO".toList (NewColor "38;5;208".toList) pad25Config) =
        "               [   INFO] ".toList ∧
      (GenerateTag Env.sample "INFO".toList (NewColor "36".toList) pad25Config).length = 34 ∧
      (GenerateTag Env.sample "INFO".toList (NewColor "38;5;208".toList) pad25Config).length = 40 :=
  ⟨by decide!, by decide!, by decide!, by decide!, by decide!, by decide!, by decide!,
    (alignment_independent_of_color Env.sample "INFO".toList "36".toList "38;5;208".toList
      pad25Config (by decide!) (by decide!) (by decide!) (by decide!) (by decide!)
      (by decide!) (by decide!) (by decide!) (by decide!)).1,
    by decide!, by decide!, by decide!⟩

/-- A code of five digits: the pattern takes four digits and a fifth character, and
the letter `m` of the colour sequence stays in the text.  And a pad width of 10000010,
one more than fmt parses: the text is the error report of fmt around the tag, 37
characters and not the 10000001 of the padding. -/
theorem five_digit_code_leaves_m :
    codeOk "12345".toList = false ∧
      removeAnsi (GenerateTag Env.sample "INFO".toList (NewColor "36".toList) (NewConfig Env.sample)) =
        "[   INFO] ".toList ∧
      removeAnsi
          (GenerateTag Env.sample "INFO".toList (NewColor "12345".toList) (NewConfig Env.sample)) =
        "[m   INFO] ".toList ∧
      removeAnsi (GenerateTag Env.sample "INFO".toList (NewColor "36".toList) (NewConfig Env.sample)) ≠
        removeAnsi
          (GenerateTag Env.sample "INFO".toList (NewColor "12345".toList) (NewConfig Env.sample)) ∧
      hugePadConfig.LevelTextPadding + (("36".toList.length : Int) + 7) = 10000010 ∧
      removeAnsi (GenerateTag Env.sample "INFO".toList (NewColor "36".toList) hugePadConfig) =
        "%!(NOVERB)%!(EXTRA string=[   INFO] )".toList ∧
      (removeAnsi (GenerateTag Env.sample "INFO".toList (NewColor "36".toList) hugePadConfig)).length ≠
        max hugePadConfig.LevelTextPadding.toNat
          (removeAnsi (bracketTag Env.sample "INFO".toList (NewColor "36".toList) hugePadConfig)).length := by
  decide!

end Tinylog
